import Mathlib

/-!
Verification of the point-scoring and server-rotation engine of the Padel-Stats
application (`padel_app.py`).

The engine keeps all of its state in one mutable session record.  We embed that
record as the structure `SessionState` below; every engine function becomes a
pure function `SessionState → SessionState` (or returns a result alongside the
state).  Team rosters are pairs of player names; points, games, sets and
tiebreak points are natural numbers; string fields keep the exact sentinel
values used by the source (`""` meaning unset, `"SET"`/`"SUPER"` for the
tiebreak kind, the literal Spanish UI strings for formats and error messages).

Wall-clock fields of the source (`FechaHora`, `DuracionPunto`, `point_start`)
are omitted: no scoring decision reads them.
-/

/-- Two-player team roster, in display order. -/
abbrev Team := String × String

/-- String constants mirroring the module-level configuration lists. -/
def SAQUE_ESTADOS : List String := ["Correcto", "Primer error", "Doble falta"]

def RESULTADOS : List String := ["Winner", "Error forzado", "Error no forzado"]

def CADENA_VACIA : String := ""

def TB_SET : String := "SET"

def TB_SUPER : String := "SUPER"

def FORMATO_3SETS : String := "3 sets"

def FORMATO_SUPER : String := "Super tie-break"

def MODO_ADVANTAGE : String := "Advantage"

def MODO_GOLDEN : String := "Golden"

def MODO_STAR : String := "Star Point"

def MSG_FALTA_SACADOR : String := "Falta sacador. Elígelo en el marcador."

def MSG_FALTA_RECEPTOR : String := "Falta seleccionar receptor para el Golden Point (Star Point)."

def MSG_MATCH_OVER : String := "El partido ya terminó. Reinicia si quieres registrar otro."

def MSG_NO_GANADOR : String := "No pude determinar el equipo ganador."

def MSG_ELIGE_SACADOR_UI : String := "Selecciona el sacador en el marcador para continuar."

def MSG_SUPER_TB_PRIMERO : String := "Super tie-break: elige el 1º sacador (solo para el primer punto)."

def MSG_SUPER_TB_SEGUNDO : String := "Super tie-break: ahora elige el 2º sacador (del otro equipo)."

/-- Index a two-counter pair the way the source indexes its two-element lists
(`pts[i]` with `i ∈ {0, 1}`). -/
def getP (p : Nat × Nat) (i : Nat) : Nat := if i = 0 then p.1 else p.2

/-- Write one slot of a two-counter pair (`pts[i] = v`). -/
def setP (p : Nat × Nat) (i : Nat) (v : Nat) : Nat × Nat :=
  if i = 0 then (v, p.2) else (p.1, v)

/-- Absolute difference on naturals, standing in for Python `abs(g1 - g2)`. -/
def abs_diff (a b : Nat) : Nat := if b ≤ a then a - b else b - a

/-- Write one team slot of the `team_first_server` map (`{1: _, 2: _}`). -/
def setTF (p : String × String) (t : Nat) (v : String) : String × String :=
  if t = 1 then (v, p.2) else if t = 2 then (p.1, v) else p

/-- The session state of the scoring engine: every `st.session_state` field
read or written by the score, tiebreak, rotation and validation functions. -/
structure SessionState where
  match_over : Bool
  sets : Nat × Nat
  games : Nat × Nat
  pts : Nat × Nat
  adv : Nat
  in_tb : Bool
  tb_tipo : String
  tb_target : Nat
  tb_pts : Nat × Nat
  tb_rotation : List String
  tb_start_idx : Nat
  super_tb_first : String
  super_tb_second : String
  super_tb_ready : Bool
  star_adv_count : Nat
  star_golden_active : Bool
  golden_receiver : String
  server_order : List String
  server_index : Nat
  team_first_server : String × String
  pending_other_team_pick : Nat
  need_other_team_pick_now : Bool
  first_server_of_set : String
  current_server : String
  server_team : Nat
  formato_partido : String
  sel_saque_estado : String
  sel_resultado : String
  sel_golpe : String
  sel_actor : String
  sel_provocador : String
  sel_asistencia : String
  sel_asistente : String
  deriving DecidableEq, Repr

/-- `equipo_de`: team number (1 or 2) of a player, 0 if unknown. -/
def equipo_de (jugador : String) (eq1 eq2 : Team) : Nat :=
  if jugador = eq1.1 ∨ jugador = eq1.2 then 1
  else if jugador = eq2.1 ∨ jugador = eq2.2 then 2
  else 0

/-- `opuesto`: the opposing team number. -/
def opuesto (eq : Nat) : Nat := if eq = 1 then 2 else if eq = 2 then 1 else 0

/-- `companero`: the partner of a player within their roster. -/
def companero (actor : String) (eq1 eq2 : Team) : String :=
  if actor = eq1.1 ∨ actor = eq1.2 then (if eq1.1 = actor then eq1.2 else eq1.1)
  else if actor = eq2.1 ∨ actor = eq2.2 then (if eq2.1 = actor then eq2.2 else eq2.1)
  else ""

/-- `ganador_equipo_por_regla`: winning team from the classified result. -/
def ganador_equipo_por_regla (resultado actor provocador : String) (eq1 eq2 : Team) : Nat :=
  if resultado = "Winner" then equipo_de actor eq1 eq2
  else if resultado = "Error no forzado" then opuesto (equipo_de actor eq1 eq2)
  else if resultado = "Error forzado" then equipo_de provocador eq1 eq2
  else 0

/-- `reset_star_game_state`: clear the Star Point per-game state. -/
def reset_star_game_state (s : SessionState) : SessionState :=
  { s with star_adv_count := 0, star_golden_active := false, golden_receiver := "" }

/-- `is_star_golden_now`: the current point is a Star Point sudden-death point. -/
def is_star_golden_now (modo_deuce : String) (s : SessionState) : Prop :=
  modo_deuce = "Star Point" ∧ s.in_tb = false ∧ s.pts.1 = 3 ∧ s.pts.2 = 3 ∧
    s.adv = 0 ∧ s.star_golden_active = true

instance (m : String) (s : SessionState) : Decidable (is_star_golden_now m s) := by
  unfold is_star_golden_now
  exact inferInstance

/-- `reset_server_order_for_set`: clear all per-set rotation state. -/
def reset_server_order_for_set (s : SessionState) : SessionState :=
  { s with server_order := [], server_index := 0, team_first_server := ("", ""),
           pending_other_team_pick := 0, need_other_team_pick_now := false,
           first_server_of_set := "", current_server := "", server_team := 0 }

/-- `build_full_server_order`: assemble the 4-slot order once both first
servers are known, oriented by which team served game 1. -/
def build_full_server_order (eq1 eq2 : Team) (s : SessionState) : SessionState :=
  let t1 := s.team_first_server.1
  let t2 := s.team_first_server.2
  if t1 = "" ∨ t2 = "" then s
  else
    let other1 := if eq1.1 = t1 then eq1.2 else eq1.1
    let other2 := if eq2.1 = t2 then eq2.2 else eq2.1
    let first_team := equipo_de s.first_server_of_set eq1 eq2
    let order := if first_team = 1 then [t1, t2, other1, other2] else [t2, t1, other2, other1]
    { s with server_order := order }

/-- `set_current_server_from_order`: read the current server off the order. -/
def set_current_server_from_order (eq1 eq2 : Team) (s : SessionState) : SessionState :=
  if s.server_order = [] then s
  else
    let srv := s.server_order.getD (s.server_index % 4) CADENA_VACIA
    { s with current_server := srv, server_team := equipo_de srv eq1 eq2 }

/-- `advance_server_game`: step the rotation index after a completed game. -/
def advance_server_game (eq1 eq2 : Team) (s : SessionState) : SessionState :=
  if s.server_order = [] ∧ (s.pending_other_team_pick = 1 ∨ s.pending_other_team_pick = 2) then s
  else if ¬ s.server_order = [] then
    set_current_server_from_order eq1 eq2 { s with server_index := (s.server_index + 1) % 4 }
  else s

/-- `tb_server_for_point`: tiebreak server pattern 1, 2, 2, 2, ... -/
def tb_server_for_point (tb_point_index : Nat) (rotation : List String) (start_idx : Nat) :
    String :=
  if rotation = [] then ""
  else
    let turn := if tb_point_index = 0 then 0 else 1 + (tb_point_index - 1) / 2
    let idx := (start_idx + turn) % rotation.length
    rotation.getD idx CADENA_VACIA

/-- `ensure_tb_current_server`: recompute the tiebreak server from the
rotation snapshot and the number of tiebreak points already played. -/
def ensure_tb_current_server (eq1 eq2 : Team) (s : SessionState) : SessionState :=
  if ¬ s.in_tb then s
  else
    let tb_idx := s.tb_pts.1 + s.tb_pts.2
    let rotation := s.tb_rotation
    let start_idx := s.tb_start_idx
    if rotation = [] then { s with current_server := "", server_team := 0 }
    else if rotation.length < 4 then
      let srv := rotation.getD 0 CADENA_VACIA
      { s with current_server := srv, server_team := equipo_de srv eq1 eq2 }
    else
      let srv := tb_server_for_point tb_idx rotation start_idx
      { s with current_server := srv, server_team := equipo_de srv eq1 eq2 }

/-- `_activar_tb`: enter a tiebreak of the given kind and target. -/
def _activar_tb (tipo : String) (target : Nat) (eq1 eq2 : Team) (s : SessionState) :
    SessionState :=
  let s := { s with in_tb := true, tb_tipo := tipo, tb_target := target, tb_pts := (0, 0) }
  let s := reset_star_game_state s
  let s :=
    if tipo = "SET" then
      if ¬ s.server_order = [] then
        { s with tb_rotation := s.server_order, tb_start_idx := (s.server_index + 1) % 4,
                 super_tb_ready := true }
      else
        { s with tb_rotation := [], tb_start_idx := 0, super_tb_ready := true }
    else if tipo = "SUPER" then
      { s with tb_rotation := [], tb_start_idx := 0, super_tb_first := "",
               super_tb_second := "", super_tb_ready := false }
    else s
  { s with current_server := "", server_team := 0 }

/-- `_terminar_tb_y_aplicar_ganador`: close the running tiebreak, credit the
set to the winner (Super also ends the match), reset all counters and the
per-set rotation state. -/
def _terminar_tb_y_aplicar_ganador (eq_gana_tb : Nat) (s : SessionState) : SessionState :=
  let s :=
    if s.tb_tipo = "SET" then
      { s with sets := setP s.sets (eq_gana_tb - 1) (getP s.sets (eq_gana_tb - 1) + 1) }
    else if s.tb_tipo = "SUPER" then
      { s with sets := setP s.sets (eq_gana_tb - 1) (getP s.sets (eq_gana_tb - 1) + 1),
               match_over := true }
    else s
  let s := { s with games := (0, 0), pts := (0, 0), adv := 0,
                    in_tb := false, tb_tipo := "", tb_target := 0, tb_pts := (0, 0),
                    tb_rotation := [], tb_start_idx := 0, super_tb_first := "",
                    super_tb_second := "", super_tb_ready := false }
  reset_server_order_for_set (reset_star_game_state s)

/-- `_ganar_set_normal`: credit a normally-won set and reset for the next set. -/
def _ganar_set_normal (eq_gana_set : Nat) (s : SessionState) : SessionState :=
  let s := { s with sets := setP s.sets (eq_gana_set - 1) (getP s.sets (eq_gana_set - 1) + 1),
                    games := (0, 0), pts := (0, 0), adv := 0 }
  let s := reset_server_order_for_set (reset_star_game_state s)
  let s :=
    if s.formato_partido = "3 sets" ∧ 2 ≤ max s.sets.1 s.sets.2 then
      { s with match_over := true }
    else s
  if s.formato_partido = "Super tie-break" ∧ 2 ≤ max s.sets.1 s.sets.2 then
    { s with match_over := true }
  else s

/-- `_check_activar_super_tb_si_corresponde`: start the super tiebreak when
the format asks for one and the sets have just reached 1-1. -/
def _check_activar_super_tb_si_corresponde (eq1 eq2 : Team) (s : SessionState) : SessionState :=
  if ¬ s.formato_partido = "Super tie-break" then s
  else if s.match_over then s
  else if s.sets = (1, 1) then _activar_tb TB_SUPER 11 eq1 eq2 s
  else s

/-- `ganar_juego`: credit a game, then cascade into set-tiebreak activation,
set win, or server advance for the next game. -/
def ganar_juego (eq_gana_game : Nat) (eq1 eq2 : Team) (s : SessionState) : SessionState :=
  let s := { s with
    games := setP s.games (eq_gana_game - 1) (getP s.games (eq_gana_game - 1) + 1),
    pts := (0, 0), adv := 0 }
  let s := reset_star_game_state s
  let g1 := s.games.1
  let g2 := s.games.2
  if g1 = 6 ∧ g2 = 6 then _activar_tb TB_SET 7 eq1 eq2 s
  else if (6 ≤ g1 ∨ 6 ≤ g2) ∧ 2 ≤ abs_diff g1 g2 then
    _check_activar_super_tb_si_corresponde eq1 eq2
      (_ganar_set_normal (if g2 < g1 then 1 else 2) s)
  else if s.server_order = [] ∧
      (s.pending_other_team_pick = 1 ∨ s.pending_other_team_pick = 2) then
    { s with need_other_team_pick_now := true, current_server := "", server_team := 0 }
  else advance_server_game eq1 eq2 s

/-- `actualizar_marcador`: apply one won point to the score, branching on the
tiebreak flag and the deuce policy. -/
def actualizar_marcador (eq_gana_punto : Nat) (modo_deuce : String) (eq1 eq2 : Team)
    (s : SessionState) : SessionState :=
  if s.match_over then s
  else
    let i := eq_gana_punto - 1
    let j := 1 - i
    if s.in_tb then
      let s := { s with tb_pts := setP s.tb_pts i (getP s.tb_pts i + 1) }
      let a := s.tb_pts.1
      let b := s.tb_pts.2
      let tgt := s.tb_target
      if (tgt ≤ a ∨ tgt ≤ b) ∧ 2 ≤ abs_diff a b then
        _terminar_tb_y_aplicar_ganador eq_gana_punto s
      else s
    else if modo_deuce = "Golden" then
      if getP s.pts i = 3 ∧ getP s.pts j = 3 then ganar_juego eq_gana_punto eq1 eq2 s
      else
        let s := { s with pts := setP s.pts i (getP s.pts i + 1) }
        if 4 ≤ getP s.pts i ∧ 2 ≤ getP s.pts i - getP s.pts j then
          ganar_juego eq_gana_punto eq1 eq2 s
        else s
    else if modo_deuce = "Star Point" then
      if is_star_golden_now modo_deuce s then ganar_juego eq_gana_punto eq1 eq2 s
      else if getP s.pts i = 3 ∧ getP s.pts j = 3 ∧ s.adv = 0 then
        let s := { s with adv := eq_gana_punto, star_adv_count := s.star_adv_count + 1 }
        if 2 ≤ s.star_adv_count then { s with star_golden_active := true } else s
      else if getP s.pts i = 3 ∧ getP s.pts j = 3 ∧ ¬ s.adv = 0 then
        if s.adv = eq_gana_punto then ganar_juego eq_gana_punto eq1 eq2 { s with adv := 0 }
        else { s with adv := 0 }
      else
        let s := { s with pts := setP s.pts i (getP s.pts i + 1) }
        if 4 ≤ getP s.pts i ∧ 2 ≤ getP s.pts i - getP s.pts j then
          ganar_juego eq_gana_punto eq1 eq2 s
        else s
    else
      if getP s.pts i = 3 ∧ getP s.pts j = 3 then
        if s.adv = 0 then { s with adv := eq_gana_punto }
        else if s.adv = eq_gana_punto then
          ganar_juego eq_gana_punto eq1 eq2 { s with adv := 0 }
        else { s with adv := 0 }
      else
        let s := { s with pts := setP s.pts i (getP s.pts i + 1) }
        if 4 ≤ getP s.pts i ∧ 2 ≤ getP s.pts i - getP s.pts j then
          ganar_juego eq_gana_punto eq1 eq2 s
        else s

/-- `set_actual`: the 1-based number of the set currently being played. -/
def set_actual (s : SessionState) : Nat := max (s.sets.1 + s.sets.2 + 1) 1

/-- `PTS_TEXT` lookup with the `str(p)` fallback of `dict.get`. -/
def PTS_TEXT (p : Nat) : String :=
  if p = 0 then "0" else if p = 1 then "15" else if p = 2 then "30"
  else if p = 3 then "40" else toString p

/-- `puntos_texto`: the displayed point score of one team. -/
def puntos_texto (eq_idx : Nat) (modo_deuce : String) (s : SessionState) : String :=
  if s.in_tb then toString (getP s.tb_pts eq_idx)
  else
    let p := getP s.pts eq_idx
    let o := getP s.pts (1 - eq_idx)
    if (modo_deuce = "Advantage" ∨ modo_deuce = "Star Point") ∧ p = 3 ∧ o = 3 then
      if s.adv = eq_idx + 1 then "AD" else "40"
    else PTS_TEXT p

/-- `validar_punto`: validation run before any mutation; returns the first
violated rule, or `none` when the point input is acceptable. -/
def validar_punto (eq1 eq2 : Team) (modo_deuce : String) (s : SessionState) : Option String :=
  let jugadores : List String := [eq1.1, eq1.2, eq2.1, eq2.2]
  if s.current_server = "" then some MSG_FALTA_SACADOR
  else if is_star_golden_now modo_deuce s ∧ s.golden_receiver = "" then
    some MSG_FALTA_RECEPTOR
  else
    let se := s.sel_saque_estado
    if ¬ se = "" ∧ se ∉ SAQUE_ESTADOS then some ("Estado del saque inválido.")
    else if se = "Doble falta" then none
    else
      let res := s.sel_resultado
      if res ∉ RESULTADOS then some ("Falta seleccionar el resultado.")
      else
        let golpe := s.sel_golpe
        if golpe = "" then some ("Falta seleccionar el golpe.")
        else if res = "Winner" ∧ golpe = "Saque" then none
        else if res = "Error no forzado" ∧ golpe = "Saque" then none
        else if res = "Winner" then
          if s.sel_actor ∉ jugadores then some ("Falta seleccionar Actor.")
          else if ¬ s.sel_asistencia = "Sí" ∧ ¬ s.sel_asistencia = "No" then
            some ("En Winner, indica si hubo asistencia (Sí/No).")
          else if s.sel_asistencia = "Sí" then
            let asist := s.sel_asistente
            if asist ∉ jugadores then some ("Asistente inválido.")
            else if asist = s.sel_actor then some ("Asistente no puede ser igual al Actor.")
            else if ¬ equipo_de asist eq1 eq2 = equipo_de s.sel_actor eq1 eq2 then
              some ("Asistente debe ser del mismo equipo del Actor.")
            else none
          else none
        else if res = "Error no forzado" then
          if s.sel_actor ∉ jugadores then some ("Falta seleccionar Actor.")
          else none
        else if res = "Error forzado" then
          let actor := s.sel_actor
          let prov := s.sel_provocador
          if actor ∉ jugadores then some ("Falta seleccionar Actor (quién se equivocó).")
          else if prov ∉ jugadores then
            some ("Falta seleccionar Provocador (quién forzó).")
          else if equipo_de prov eq1 eq2 = equipo_de actor eq1 eq2 then
            some ("Provocador debe ser del equipo contrario al Actor.")
          else none
        else none

/-- One appended event row (the Excel columns written per accepted point,
minus the two wall-clock columns). -/
structure Row where
  Set : Nat
  Games_Eq1 : Nat
  Games_Eq2 : Nat
  Pts_Eq1 : String
  Pts_Eq2 : String
  TieBreak : Bool
  TB_Tipo : String
  Saca : String
  SaqueEstado : String
  Resultado : String
  Golpe : String
  JugadorActor : String
  JugadorProvocador : String
  Asistencia : String
  Asistente : String
  EquipoGanadorPunto : Nat
  GoldenReceiver : String
  deriving DecidableEq, Repr

/-- `make_row_base`: the score-snapshot columns of a row, taken from the
session state as it stands when the row is built.  The event-detail columns
are filled by the caller (`registrar_evento`). -/
def make_row_base (modo_deuce : String) (s : SessionState) : Row :=
  { Set := set_actual s
    Games_Eq1 := s.games.1
    Games_Eq2 := s.games.2
    Pts_Eq1 := puntos_texto 0 modo_deuce s
    Pts_Eq2 := puntos_texto 1 modo_deuce s
    TieBreak := s.in_tb
    TB_Tipo := if s.in_tb then s.tb_tipo else ""
    Saca := "", SaqueEstado := "", Resultado := "", Golpe := "", JugadorActor := ""
    JugadorProvocador := "", Asistencia := "", Asistente := ""
    EquipoGanadorPunto := 0, GoldenReceiver := "" }

/-- `reset_punto`: clear the point-entry selections after a saved point. -/
def reset_punto (s : SessionState) : SessionState :=
  { s with sel_saque_estado := "", sel_resultado := "", sel_golpe := "", sel_actor := "",
           sel_provocador := "", sel_asistencia := "", sel_asistente := "",
           golden_receiver := "" }

/-- `registrar_evento`: the whole point-registration step.  Returns the new
session state, the appended row if the point was accepted, and otherwise the
rejection reason with the state untouched. -/
def registrar_evento (eq1 eq2 : Team) (modo_deuce : String) (s : SessionState) :
    SessionState × Option Row × Option String :=
  if s.match_over then (s, none, some MSG_MATCH_OVER)
  else
    match validar_punto eq1 eq2 modo_deuce s with
    | some err => (s, none, some err)
    | none =>
      let saca := s.current_server
      let saque_estado := if s.sel_saque_estado = "" then "Correcto" else s.sel_saque_estado
      let res := s.sel_resultado
      let golpe := s.sel_golpe
      if saque_estado = "Doble falta" then
        let eq_ganador := opuesto (equipo_de saca eq1 eq2)
        let s2 := actualizar_marcador eq_ganador modo_deuce eq1 eq2 s
        let row := { make_row_base modo_deuce s2 with
          Saca := saca, SaqueEstado := saque_estado, Resultado := "Error no forzado",
          Golpe := "Saque", JugadorActor := saca, JugadorProvocador := "",
          Asistencia := "", Asistente := "", EquipoGanadorPunto := eq_ganador,
          GoldenReceiver :=
            if is_star_golden_now modo_deuce s2 then s2.golden_receiver else "" }
        (reset_punto s2, some row, none)
      else
        let afpa : String × String × String × String :=
          if (res = "Winner" ∧ golpe = "Saque") ∨
             (res = "Error no forzado" ∧ golpe = "Saque") then (saca, "", "", "")
          else
            (s.sel_actor,
             if res = "Error forzado" then s.sel_provocador else "",
             if res = "Winner" then s.sel_asistencia else "",
             if res = "Winner" ∧ s.sel_asistencia = "Sí" then s.sel_asistente else "")
        let actor_final := afpa.1
        let prov_final := afpa.2.1
        let asis_final := afpa.2.2.1
        let asistente_final := afpa.2.2.2
        let eq_ganador := ganador_equipo_por_regla res actor_final prov_final eq1 eq2
        if ¬ eq_ganador = 1 ∧ ¬ eq_ganador = 2 then (s, none, some MSG_NO_GANADOR)
        else
          let s2 := actualizar_marcador eq_ganador modo_deuce eq1 eq2 s
          let row := { make_row_base modo_deuce s2 with
            Saca := saca, SaqueEstado := saque_estado, Resultado := res, Golpe := golpe,
            JugadorActor := actor_final, JugadorProvocador := prov_final,
            Asistencia := asis_final, Asistente := asistente_final,
            EquipoGanadorPunto := eq_ganador,
            GoldenReceiver :=
              if is_star_golden_now modo_deuce s2 then s2.golden_receiver else "" }
          (reset_punto s2, some row, none)

/-- Model of the script-level gating a submission passes before
`registrar_evento` runs: the tiebreak-server refresh, the missing-server
stop, and the two Super-tiebreak picker stops. -/
def submit_point (eq1 eq2 : Team) (modo_deuce : String) (s : SessionState) :
    SessionState × Option Row × Option String :=
  let s := if s.in_tb then ensure_tb_current_server eq1 eq2 s else s
  if ¬ s.in_tb ∧ s.current_server = "" ∧
     ¬ (s.need_other_team_pick_now ∧
        (s.pending_other_team_pick = 1 ∨ s.pending_other_team_pick = 2)) then
    (s, none, some MSG_ELIGE_SACADOR_UI)
  else
    let tb_idx := s.tb_pts.1 + s.tb_pts.2
    if s.in_tb ∧ s.tb_tipo = "SUPER" ∧ tb_idx = 0 ∧ s.super_tb_first = "" then
      (s, none, some MSG_SUPER_TB_PRIMERO)
    else if s.in_tb ∧ s.tb_tipo = "SUPER" ∧ 1 ≤ tb_idx ∧ ¬ s.super_tb_first = "" ∧
        s.super_tb_second = "" then
      (s, none, some MSG_SUPER_TB_SEGUNDO)
    else
      let s := if s.in_tb then ensure_tb_current_server eq1 eq2 s else s
      registrar_evento eq1 eq2 modo_deuce s

/-- Script handler for choosing the game-1 server. -/
def pick_server_game1 (elegido : String) (eq1 eq2 : Team) (s : SessionState) : SessionState :=
  let t := equipo_de elegido eq1 eq2
  { s with current_server := elegido, server_team := t, first_server_of_set := elegido,
           team_first_server := setTF s.team_first_server t elegido,
           pending_other_team_pick := opuesto t, need_other_team_pick_now := false,
           server_index := 0 }

/-- Script handler for choosing the game-2 server of the other team: fixes the
pick, assembles the full order, and points the rotation at game 2. -/
def pick_server_game2 (elegido2 : String) (eq1 eq2 : Team) (s : SessionState) : SessionState :=
  let s := { s with team_first_server :=
               setTF s.team_first_server s.pending_other_team_pick elegido2 }
  let s := build_full_server_order eq1 eq2 s
  let s := { s with server_index := 1 }
  let s := set_current_server_from_order eq1 eq2 s
  { s with pending_other_team_pick := 0, need_other_team_pick_now := false }

/-- Script handler for the Super-tiebreak first-server pick. -/
def pick_super_tb_first (first : String) (s : SessionState) : SessionState :=
  { s with super_tb_first := first, tb_rotation := [first], tb_start_idx := 0 }

/-- Script handler for the Super-tiebreak second-server pick: completes the
4-slot tiebreak rotation with the two partners. -/
def pick_super_tb_second (second : String) (eq1 eq2 : Team) (s : SessionState) :
    SessionState :=
  let first := s.super_tb_first
  let third := companero first eq1 eq2
  let fourth := companero second eq1 eq2
  { s with super_tb_second := second, tb_rotation := [first, second, third, fourth],
           tb_start_idx := 0, super_tb_ready := true }

/-- Script-level option list for the Star Point golden receiver: the members
of the team opposing the current server. -/
def golden_receiver_options (eq1 eq2 : Team) (s : SessionState) : List String :=
  let receiving_team := opuesto (equipo_de s.current_server eq1 eq2)
  if receiving_team = 1 then [eq1.1, eq1.2] else [eq2.1, eq2.2]

/-- The session state right after `reset_match` and `reset_punto`, with the
match format already configured. -/
def initial_state (formato : String) : SessionState :=
  { match_over := false, sets := (0, 0), games := (0, 0), pts := (0, 0), adv := 0,
    in_tb := false, tb_tipo := "", tb_target := 0, tb_pts := (0, 0),
    tb_rotation := [], tb_start_idx := 0, super_tb_first := "", super_tb_second := "",
    super_tb_ready := false, star_adv_count := 0, star_golden_active := false,
    golden_receiver := "", server_order := [], server_index := 0,
    team_first_server := ("", ""), pending_other_team_pick := 0,
    need_other_team_pick_now := false, first_server_of_set := "", current_server := "",
    server_team := 0, formato_partido := formato,
    sel_saque_estado := "", sel_resultado := "", sel_golpe := "", sel_actor := "",
    sel_provocador := "", sel_asistencia := "", sel_asistente := "" }

/-- Fixed concrete roster used by counterexamples and witnesses. -/
def pA : String := "A"

def pB : String := "B"

def pC : String := "C"

def pD : String := "D"

def e1c : Team := (pA, pB)

def e2c : Team := (pC, pD)

/-! ## Field-view lemmas for the engine transitions

One lemma per function and state field, so that composed transitions can be
reasoned about field by field without materializing the full record. -/

set_option maxHeartbeats 1000000

@[simp] theorem rsgs_match_over (x : SessionState) :
    (reset_star_game_state x).match_over = x.match_over := by
  dsimp only [reset_star_game_state, CADENA_VACIA]
  all_goals split_ifs <;> rfl

@[simp] theorem rsgs_sets (x : SessionState) :
    (reset_star_game_state x).sets = x.sets := by
  dsimp only [reset_star_game_state, CADENA_VACIA]
  all_goals split_ifs <;> rfl

@[simp] theorem rsgs_games (x : SessionState) :
    (reset_star_game_state x).games = x.games := by
  dsimp only [reset_star_game_state, CADENA_VACIA]
  all_goals split_ifs <;> rfl

@[simp] theorem rsgs_pts (x : SessionState) :
    (reset_star_game_state x).pts = x.pts := by
  dsimp only [reset_star_game_state, CADENA_VACIA]
  all_goals split_ifs <;> rfl

@[simp] theorem rsgs_adv (x : SessionState) :
    (reset_star_game_state x).adv = x.adv := by
  dsimp only [reset_star_game_state, CADENA_VACIA]
  all_goals split_ifs <;> rfl

@[simp] theorem rsgs_in_tb (x : SessionState) :
    (reset_star_game_state x).in_tb = x.in_tb := by
  dsimp only [reset_star_game_state, CADENA_VACIA]
  all_goals split_ifs <;> rfl

@[simp] theorem rsgs_tb_tipo (x : SessionState) :
    (reset_star_game_state x).tb_tipo = x.tb_tipo := by
  dsimp only [reset_star_game_state, CADENA_VACIA]
  all_goals split_ifs <;> rfl

@[simp] theorem rsgs_tb_target (x : SessionState) :
    (reset_star_game_state x).tb_target = x.tb_target := by
  dsimp only [reset_star_game_state, CADENA_VACIA]
  all_goals split_ifs <;> rfl

@[simp] theorem rsgs_tb_pts (x : SessionState) :
    (reset_star_game_state x).tb_pts = x.tb_pts := by
  dsimp only [reset_star_game_state, CADENA_VACIA]
  all_goals split_ifs <;> rfl

@[simp] theorem rsgs_tb_rotation (x : SessionState) :
    (reset_star_game_state x).tb_rotation = x.tb_rotation := by
  dsimp only [reset_star_game_state, CADENA_VACIA]
  all_goals split_ifs <;> rfl

@[simp] theorem rsgs_tb_start_idx (x : SessionState) :
    (reset_star_game_state x).tb_start_idx = x.tb_start_idx := by
  dsimp only [reset_star_game_state, CADENA_VACIA]
  all_goals split_ifs <;> rfl

@[simp] theorem rsgs_super_tb_first (x : SessionState) :
    (reset_star_game_state x).super_tb_first = x.super_tb_first := by
  dsimp only [reset_star_game_state, CADENA_VACIA]
  all_goals split_ifs <;> rfl

@[simp] theorem rsgs_super_tb_second (x : SessionState) :
    (reset_star_game_state x).super_tb_second = x.super_tb_second := by
  dsimp only [reset_star_game_state, CADENA_VACIA]
  all_goals split_ifs <;> rfl

@[simp] theorem rsgs_super_tb_ready (x : SessionState) :
    (reset_star_game_state x).super_tb_ready = x.super_tb_ready := by
  dsimp only [reset_star_game_state, CADENA_VACIA]
  all_goals split_ifs <;> rfl

@[simp] theorem rsgs_star_adv_count (x : SessionState) :
    (reset_star_game_state x).star_adv_count = 0 := by
  dsimp only [reset_star_game_state, CADENA_VACIA]
  all_goals split_ifs <;> rfl

@[simp] theorem rsgs_star_golden_active (x : SessionState) :
    (reset_star_game_state x).star_golden_active = false := by
  dsimp only [reset_star_game_state, CADENA_VACIA]
  all_goals split_ifs <;> rfl

@[simp] theorem rsgs_golden_receiver (x : SessionState) :
    (reset_star_game_state x).golden_receiver = CADENA_VACIA := by
  dsimp only [reset_star_game_state, CADENA_VACIA]
  all_goals split_ifs <;> rfl

@[simp] theorem rsgs_server_order (x : SessionState) :
    (reset_star_game_state x).server_order = x.server_order := by
  dsimp only [reset_star_game_state, CADENA_VACIA]
  all_goals split_ifs <;> rfl

@[simp] theorem rsgs_server_index (x : SessionState) :
    (reset_star_game_state x).server_index = x.server_index := by
  dsimp only [reset_star_game_state, CADENA_VACIA]
  all_goals split_ifs <;> rfl

@[simp] theorem rsgs_team_first_server (x : SessionState) :
    (reset_star_game_state x).team_first_server = x.team_first_server := by
  dsimp only [reset_star_game_state, CADENA_VACIA]
  all_goals split_ifs <;> rfl

@[simp] theorem rsgs_pending_other_team_pick (x : SessionState) :
    (reset_star_game_state x).pending_other_team_pick = x.pending_other_team_pick := by
  dsimp only [reset_star_game_state, CADENA_VACIA]
  all_goals split_ifs <;> rfl

@[simp] theorem rsgs_need_other_team_pick_now (x : SessionState) :
    (reset_star_game_state x).need_other_team_pick_now = x.need_other_team_pick_now := by
  dsimp only [reset_star_game_state, CADENA_VACIA]
  all_goals split_ifs <;> rfl

@[simp] theorem rsgs_first_server_of_set (x : SessionState) :
    (reset_star_game_state x).first_server_of_set = x.first_server_of_set := by
  dsimp only [reset_star_game_state, CADENA_VACIA]
  all_goals split_ifs <;> rfl

@[simp] theorem rsgs_current_server (x : SessionState) :
    (reset_star_game_state x).current_server = x.current_server := by
  dsimp only [reset_star_game_state, CADENA_VACIA]
  all_goals split_ifs <;> rfl

@[simp] theorem rsgs_server_team (x : SessionState) :
    (reset_star_game_state x).server_team = x.server_team := by
  dsimp only [reset_star_game_state, CADENA_VACIA]
  all_goals split_ifs <;> rfl

@[simp] theorem rsgs_formato_partido (x : SessionState) :
    (reset_star_game_state x).formato_partido = x.formato_partido := by
  dsimp only [reset_star_game_state, CADENA_VACIA]
  all_goals split_ifs <;> rfl

@[simp] theorem rsgs_sel_saque_estado (x : SessionState) :
    (reset_star_game_state x).sel_saque_estado = x.sel_saque_estado := by
  dsimp only [reset_star_game_state, CADENA_VACIA]
  all_goals split_ifs <;> rfl

@[simp] theorem rsgs_sel_resultado (x : SessionState) :
    (reset_star_game_state x).sel_resultado = x.sel_resultado := by
  dsimp only [reset_star_game_state, CADENA_VACIA]
  all_goals split_ifs <;> rfl

@[simp] theorem rsgs_sel_golpe (x : SessionState) :
    (reset_star_game_state x).sel_golpe = x.sel_golpe := by
  dsimp only [reset_star_game_state, CADENA_VACIA]
  all_goals split_ifs <;> rfl

@[simp] theorem rsgs_sel_actor (x : SessionState) :
    (reset_star_game_state x).sel_actor = x.sel_actor := by
  dsimp only [reset_star_game_state, CADENA_VACIA]
  all_goals split_ifs <;> rfl

@[simp] theorem rsgs_sel_provocador (x : SessionState) :
    (reset_star_game_state x).sel_provocador = x.sel_provocador := by
  dsimp only [reset_star_game_state, CADENA_VACIA]
  all_goals split_ifs <;> rfl

@[simp] theorem rsgs_sel_asistencia (x : SessionState) :
    (reset_star_game_state x).sel_asistencia = x.sel_asistencia := by
  dsimp only [reset_star_game_state, CADENA_VACIA]
  all_goals split_ifs <;> rfl

@[simp] theorem rsgs_sel_asistente (x : SessionState) :
    (reset_star_game_state x).sel_asistente = x.sel_asistente := by
  dsimp only [reset_star_game_state, CADENA_VACIA]
  all_goals split_ifs <;> rfl

@[simp] theorem rsos_match_over (x : SessionState) :
    (reset_server_order_for_set x).match_over = x.match_over := by
  dsimp only [reset_server_order_for_set, CADENA_VACIA]
  all_goals split_ifs <;> rfl

@[simp] theorem rsos_sets (x : SessionState) :
    (reset_server_order_for_set x).sets = x.sets := by
  dsimp only [reset_server_order_for_set, CADENA_VACIA]
  all_goals split_ifs <;> rfl

@[simp] theorem rsos_games (x : SessionState) :
    (reset_server_order_for_set x).games = x.games := by
  dsimp only [reset_server_order_for_set, CADENA_VACIA]
  all_goals split_ifs <;> rfl

@[simp] theorem rsos_pts (x : SessionState) :
    (reset_server_order_for_set x).pts = x.pts := by
  dsimp only [reset_server_order_for_set, CADENA_VACIA]
  all_goals split_ifs <;> rfl

@[simp] theorem rsos_adv (x : SessionState) :
    (reset_server_order_for_set x).adv = x.adv := by
  dsimp only [reset_server_order_for_set, CADENA_VACIA]
  all_goals split_ifs <;> rfl

@[simp] theorem rsos_in_tb (x : SessionState) :
    (reset_server_order_for_set x).in_tb = x.in_tb := by
  dsimp only [reset_server_order_for_set, CADENA_VACIA]
  all_goals split_ifs <;> rfl

@[simp] theorem rsos_tb_tipo (x : SessionState) :
    (reset_server_order_for_set x).tb_tipo = x.tb_tipo := by
  dsimp only [reset_server_order_for_set, CADENA_VACIA]
  all_goals split_ifs <;> rfl

@[simp] theorem rsos_tb_target (x : SessionState) :
    (reset_server_order_for_set x).tb_target = x.tb_target := by
  dsimp only [reset_server_order_for_set, CADENA_VACIA]
  all_goals split_ifs <;> rfl

@[simp] theorem rsos_tb_pts (x : SessionState) :
    (reset_server_order_for_set x).tb_pts = x.tb_pts := by
  dsimp only [reset_server_order_for_set, CADENA_VACIA]
  all_goals split_ifs <;> rfl

@[simp] theorem rsos_tb_rotation (x : SessionState) :
    (reset_server_order_for_set x).tb_rotation = x.tb_rotation := by
  dsimp only [reset_server_order_for_set, CADENA_VACIA]
  all_goals split_ifs <;> rfl

@[simp] theorem rsos_tb_start_idx (x : SessionState) :
    (reset_server_order_for_set x).tb_start_idx = x.tb_start_idx := by
  dsimp only [reset_server_order_for_set, CADENA_VACIA]
  all_goals split_ifs <;> rfl

@[simp] theorem rsos_super_tb_first (x : SessionState) :
    (reset_server_order_for_set x).super_tb_first = x.super_tb_first := by
  dsimp only [reset_server_order_for_set, CADENA_VACIA]
  all_goals split_ifs <;> rfl

@[simp] theorem rsos_super_tb_second (x : SessionState) :
    (reset_server_order_for_set x).super_tb_second = x.super_tb_second := by
  dsimp only [reset_server_order_for_set, CADENA_VACIA]
  all_goals split_ifs <;> rfl

@[simp] theorem rsos_super_tb_ready (x : SessionState) :
    (reset_server_order_for_set x).super_tb_ready = x.super_tb_ready := by
  dsimp only [reset_server_order_for_set, CADENA_VACIA]
  all_goals split_ifs <;> rfl

@[simp] theorem rsos_star_adv_count (x : SessionState) :
    (reset_server_order_for_set x).star_adv_count = x.star_adv_count := by
  dsimp only [reset_server_order_for_set, CADENA_VACIA]
  all_goals split_ifs <;> rfl

@[simp] theorem rsos_star_golden_active (x : SessionState) :
    (reset_server_order_for_set x).star_golden_active = x.star_golden_active := by
  dsimp only [reset_server_order_for_set, CADENA_VACIA]
  all_goals split_ifs <;> rfl

@[simp] theorem rsos_golden_receiver (x : SessionState) :
    (reset_server_order_for_set x).golden_receiver = x.golden_receiver := by
  dsimp only [reset_server_order_for_set, CADENA_VACIA]
  all_goals split_ifs <;> rfl

@[simp] theorem rsos_server_order (x : SessionState) :
    (reset_server_order_for_set x).server_order = [] := by
  dsimp only [reset_server_order_for_set, CADENA_VACIA]
  all_goals split_ifs <;> rfl

@[simp] theorem rsos_server_index (x : SessionState) :
    (reset_server_order_for_set x).server_index = 0 := by
  dsimp only [reset_server_order_for_set, CADENA_VACIA]
  all_goals split_ifs <;> rfl

@[simp] theorem rsos_team_first_server (x : SessionState) :
    (reset_server_order_for_set x).team_first_server = (CADENA_VACIA, CADENA_VACIA) := by
  dsimp only [reset_server_order_for_set, CADENA_VACIA]
  all_goals split_ifs <;> rfl

@[simp] theorem rsos_pending_other_team_pick (x : SessionState) :
    (reset_server_order_for_set x).pending_other_team_pick = 0 := by
  dsimp only [reset_server_order_for_set, CADENA_VACIA]
  all_goals split_ifs <;> rfl

@[simp] theorem rsos_need_other_team_pick_now (x : SessionState) :
    (reset_server_order_for_set x).need_other_team_pick_now = false := by
  dsimp only [reset_server_order_for_set, CADENA_VACIA]
  all_goals split_ifs <;> rfl

@[simp] theorem rsos_first_server_of_set (x : SessionState) :
    (reset_server_order_for_set x).first_server_of_set = CADENA_VACIA := by
  dsimp only [reset_server_order_for_set, CADENA_VACIA]
  all_goals split_ifs <;> rfl

@[simp] theorem rsos_current_server (x : SessionState) :
    (reset_server_order_for_set x).current_server = CADENA_VACIA := by
  dsimp only [reset_server_order_for_set, CADENA_VACIA]
  all_goals split_ifs <;> rfl

@[simp] theorem rsos_server_team (x : SessionState) :
    (reset_server_order_for_set x).server_team = 0 := by
  dsimp only [reset_server_order_for_set, CADENA_VACIA]
  all_goals split_ifs <;> rfl

@[simp] theorem rsos_formato_partido (x : SessionState) :
    (reset_server_order_for_set x).formato_partido = x.formato_partido := by
  dsimp only [reset_server_order_for_set, CADENA_VACIA]
  all_goals split_ifs <;> rfl

@[simp] theorem rsos_sel_saque_estado (x : SessionState) :
    (reset_server_order_for_set x).sel_saque_estado = x.sel_saque_estado := by
  dsimp only [reset_server_order_for_set, CADENA_VACIA]
  all_goals split_ifs <;> rfl

@[simp] theorem rsos_sel_resultado (x : SessionState) :
    (reset_server_order_for_set x).sel_resultado = x.sel_resultado := by
  dsimp only [reset_server_order_for_set, CADENA_VACIA]
  all_goals split_ifs <;> rfl

@[simp] theorem rsos_sel_golpe (x : SessionState) :
    (reset_server_order_for_set x).sel_golpe = x.sel_golpe := by
  dsimp only [reset_server_order_for_set, CADENA_VACIA]
  all_goals split_ifs <;> rfl

@[simp] theorem rsos_sel_actor (x : SessionState) :
    (reset_server_order_for_set x).sel_actor = x.sel_actor := by
  dsimp only [reset_server_order_for_set, CADENA_VACIA]
  all_goals split_ifs <;> rfl

@[simp] theorem rsos_sel_provocador (x : SessionState) :
    (reset_server_order_for_set x).sel_provocador = x.sel_provocador := by
  dsimp only [reset_server_order_for_set, CADENA_VACIA]
  all_goals split_ifs <;> rfl

@[simp] theorem rsos_sel_asistencia (x : SessionState) :
    (reset_server_order_for_set x).sel_asistencia = x.sel_asistencia := by
  dsimp only [reset_server_order_for_set, CADENA_VACIA]
  all_goals split_ifs <;> rfl

@[simp] theorem rsos_sel_asistente (x : SessionState) :
    (reset_server_order_for_set x).sel_asistente = x.sel_asistente := by
  dsimp only [reset_server_order_for_set, CADENA_VACIA]
  all_goals split_ifs <;> rfl

@[simp] theorem scs_match_over (e1 e2 : Team) (x : SessionState) :
    (set_current_server_from_order e1 e2 x).match_over = x.match_over := by
  dsimp only [set_current_server_from_order, CADENA_VACIA]
  all_goals split_ifs <;> rfl

@[simp] theorem scs_sets (e1 e2 : Team) (x : SessionState) :
    (set_current_server_from_order e1 e2 x).sets = x.sets := by
  dsimp only [set_current_server_from_order, CADENA_VACIA]
  all_goals split_ifs <;> rfl

@[simp] theorem scs_games (e1 e2 : Team) (x : SessionState) :
    (set_current_server_from_order e1 e2 x).games = x.games := by
  dsimp only [set_current_server_from_order, CADENA_VACIA]
  all_goals split_ifs <;> rfl

@[simp] theorem scs_pts (e1 e2 : Team) (x : SessionState) :
    (set_current_server_from_order e1 e2 x).pts = x.pts := by
  dsimp only [set_current_server_from_order, CADENA_VACIA]
  all_goals split_ifs <;> rfl

@[simp] theorem scs_adv (e1 e2 : Team) (x : SessionState) :
    (set_current_server_from_order e1 e2 x).adv = x.adv := by
  dsimp only [set_current_server_from_order, CADENA_VACIA]
  all_goals split_ifs <;> rfl

@[simp] theorem scs_in_tb (e1 e2 : Team) (x : SessionState) :
    (set_current_server_from_order e1 e2 x).in_tb = x.in_tb := by
  dsimp only [set_current_server_from_order, CADENA_VACIA]
  all_goals split_ifs <;> rfl

@[simp] theorem scs_tb_tipo (e1 e2 : Team) (x : SessionState) :
    (set_current_server_from_order e1 e2 x).tb_tipo = x.tb_tipo := by
  dsimp only [set_current_server_from_order, CADENA_VACIA]
  all_goals split_ifs <;> rfl

@[simp] theorem scs_tb_target (e1 e2 : Team) (x : SessionState) :
    (set_current_server_from_order e1 e2 x).tb_target = x.tb_target := by
  dsimp only [set_current_server_from_order, CADENA_VACIA]
  all_goals split_ifs <;> rfl

@[simp] theorem scs_tb_pts (e1 e2 : Team) (x : SessionState) :
    (set_current_server_from_order e1 e2 x).tb_pts = x.tb_pts := by
  dsimp only [set_current_server_from_order, CADENA_VACIA]
  all_goals split_ifs <;> rfl

@[simp] theorem scs_tb_rotation (e1 e2 : Team) (x : SessionState) :
    (set_current_server_from_order e1 e2 x).tb_rotation = x.tb_rotation := by
  dsimp only [set_current_server_from_order, CADENA_VACIA]
  all_goals split_ifs <;> rfl

@[simp] theorem scs_tb_start_idx (e1 e2 : Team) (x : SessionState) :
    (set_current_server_from_order e1 e2 x).tb_start_idx = x.tb_start_idx := by
  dsimp only [set_current_server_from_order, CADENA_VACIA]
  all_goals split_ifs <;> rfl

@[simp] theorem scs_super_tb_first (e1 e2 : Team) (x : SessionState) :
    (set_current_server_from_order e1 e2 x).super_tb_first = x.super_tb_first := by
  dsimp only [set_current_server_from_order, CADENA_VACIA]
  all_goals split_ifs <;> rfl

@[simp] theorem scs_super_tb_second (e1 e2 : Team) (x : SessionState) :
    (set_current_server_from_order e1 e2 x).super_tb_second = x.super_tb_second := by
  dsimp only [set_current_server_from_order, CADENA_VACIA]
  all_goals split_ifs <;> rfl

@[simp] theorem scs_super_tb_ready (e1 e2 : Team) (x : SessionState) :
    (set_current_server_from_order e1 e2 x).super_tb_ready = x.super_tb_ready := by
  dsimp only [set_current_server_from_order, CADENA_VACIA]
  all_goals split_ifs <;> rfl

@[simp] theorem scs_star_adv_count (e1 e2 : Team) (x : SessionState) :
    (set_current_server_from_order e1 e2 x).star_adv_count = x.star_adv_count := by
  dsimp only [set_current_server_from_order, CADENA_VACIA]
  all_goals split_ifs <;> rfl

@[simp] theorem scs_star_golden_active (e1 e2 : Team) (x : SessionState) :
    (set_current_server_from_order e1 e2 x).star_golden_active = x.star_golden_active := by
  dsimp only [set_current_server_from_order, CADENA_VACIA]
  all_goals split_ifs <;> rfl

@[simp] theorem scs_golden_receiver (e1 e2 : Team) (x : SessionState) :
    (set_current_server_from_order e1 e2 x).golden_receiver = x.golden_receiver := by
  dsimp only [set_current_server_from_order, CADENA_VACIA]
  all_goals split_ifs <;> rfl

@[simp] theorem scs_server_order (e1 e2 : Team) (x : SessionState) :
    (set_current_server_from_order e1 e2 x).server_order = x.server_order := by
  dsimp only [set_current_server_from_order, CADENA_VACIA]
  all_goals split_ifs <;> rfl

@[simp] theorem scs_server_index (e1 e2 : Team) (x : SessionState) :
    (set_current_server_from_order e1 e2 x).server_index = x.server_index := by
  dsimp only [set_current_server_from_order, CADENA_VACIA]
  all_goals split_ifs <;> rfl

@[simp] theorem scs_team_first_server (e1 e2 : Team) (x : SessionState) :
    (set_current_server_from_order e1 e2 x).team_first_server = x.team_first_server := by
  dsimp only [set_current_server_from_order, CADENA_VACIA]
  all_goals split_ifs <;> rfl

@[simp] theorem scs_pending_other_team_pick (e1 e2 : Team) (x : SessionState) :
    (set_current_server_from_order e1 e2 x).pending_other_team_pick = x.pending_other_team_pick := by
  dsimp only [set_current_server_from_order, CADENA_VACIA]
  all_goals split_ifs <;> rfl

@[simp] theorem scs_need_other_team_pick_now (e1 e2 : Team) (x : SessionState) :
    (set_current_server_from_order e1 e2 x).need_other_team_pick_now = x.need_other_team_pick_now := by
  dsimp only [set_current_server_from_order, CADENA_VACIA]
  all_goals split_ifs <;> rfl

@[simp] theorem scs_first_server_of_set (e1 e2 : Team) (x : SessionState) :
    (set_current_server_from_order e1 e2 x).first_server_of_set = x.first_server_of_set := by
  dsimp only [set_current_server_from_order, CADENA_VACIA]
  all_goals split_ifs <;> rfl

@[simp] theorem scs_current_server (e1 e2 : Team) (x : SessionState) :
    (set_current_server_from_order e1 e2 x).current_server = if x.server_order = [] then x.current_server else x.server_order.getD (x.server_index % 4) CADENA_VACIA := by
  dsimp only [set_current_server_from_order, CADENA_VACIA]
  all_goals split_ifs <;> rfl

@[simp] theorem scs_server_team (e1 e2 : Team) (x : SessionState) :
    (set_current_server_from_order e1 e2 x).server_team = if x.server_order = [] then x.server_team else equipo_de (x.server_order.getD (x.server_index % 4) CADENA_VACIA) e1 e2 := by
  dsimp only [set_current_server_from_order, CADENA_VACIA]
  all_goals split_ifs <;> rfl

@[simp] theorem scs_formato_partido (e1 e2 : Team) (x : SessionState) :
    (set_current_server_from_order e1 e2 x).formato_partido = x.formato_partido := by
  dsimp only [set_current_server_from_order, CADENA_VACIA]
  all_goals split_ifs <;> rfl

@[simp] theorem scs_sel_saque_estado (e1 e2 : Team) (x : SessionState) :
    (set_current_server_from_order e1 e2 x).sel_saque_estado = x.sel_saque_estado := by
  dsimp only [set_current_server_from_order, CADENA_VACIA]
  all_goals split_ifs <;> rfl

@[simp] theorem scs_sel_resultado (e1 e2 : Team) (x : SessionState) :
    (set_current_server_from_order e1 e2 x).sel_resultado = x.sel_resultado := by
  dsimp only [set_current_server_from_order, CADENA_VACIA]
  all_goals split_ifs <;> rfl

@[simp] theorem scs_sel_golpe (e1 e2 : Team) (x : SessionState) :
    (set_current_server_from_order e1 e2 x).sel_golpe = x.sel_golpe := by
  dsimp only [set_current_server_from_order, CADENA_VACIA]
  all_goals split_ifs <;> rfl

@[simp] theorem scs_sel_actor (e1 e2 : Team) (x : SessionState) :
    (set_current_server_from_order e1 e2 x).sel_actor = x.sel_actor := by
  dsimp only [set_current_server_from_order, CADENA_VACIA]
  all_goals split_ifs <;> rfl

@[simp] theorem scs_sel_provocador (e1 e2 : Team) (x : SessionState) :
    (set_current_server_from_order e1 e2 x).sel_provocador = x.sel_provocador := by
  dsimp only [set_current_server_from_order, CADENA_VACIA]
  all_goals split_ifs <;> rfl

@[simp] theorem scs_sel_asistencia (e1 e2 : Team) (x : SessionState) :
    (set_current_server_from_order e1 e2 x).sel_asistencia = x.sel_asistencia := by
  dsimp only [set_current_server_from_order, CADENA_VACIA]
  all_goals split_ifs <;> rfl

@[simp] theorem scs_sel_asistente (e1 e2 : Team) (x : SessionState) :
    (set_current_server_from_order e1 e2 x).sel_asistente = x.sel_asistente := by
  dsimp only [set_current_server_from_order, CADENA_VACIA]
  all_goals split_ifs <;> rfl

@[simp] theorem asg_match_over (e1 e2 : Team) (x : SessionState) :
    (advance_server_game e1 e2 x).match_over = x.match_over := by
  dsimp only [advance_server_game, set_current_server_from_order, CADENA_VACIA]
  all_goals split_ifs <;> rfl

@[simp] theorem asg_sets (e1 e2 : Team) (x : SessionState) :
    (advance_server_game e1 e2 x).sets = x.sets := by
  dsimp only [advance_server_game, set_current_server_from_order, CADENA_VACIA]
  all_goals split_ifs <;> rfl

@[simp] theorem asg_games (e1 e2 : Team) (x : SessionState) :
    (advance_server_game e1 e2 x).games = x.games := by
  dsimp only [advance_server_game, set_current_server_from_order, CADENA_VACIA]
  all_goals split_ifs <;> rfl

@[simp] theorem asg_pts (e1 e2 : Team) (x : SessionState) :
    (advance_server_game e1 e2 x).pts = x.pts := by
  dsimp only [advance_server_game, set_current_server_from_order, CADENA_VACIA]
  all_goals split_ifs <;> rfl

@[simp] theorem asg_adv (e1 e2 : Team) (x : SessionState) :
    (advance_server_game e1 e2 x).adv = x.adv := by
  dsimp only [advance_server_game, set_current_server_from_order, CADENA_VACIA]
  all_goals split_ifs <;> rfl

@[simp] theorem asg_in_tb (e1 e2 : Team) (x : SessionState) :
    (advance_server_game e1 e2 x).in_tb = x.in_tb := by
  dsimp only [advance_server_game, set_current_server_from_order, CADENA_VACIA]
  all_goals split_ifs <;> rfl

@[simp] theorem asg_tb_tipo (e1 e2 : Team) (x : SessionState) :
    (advance_server_game e1 e2 x).tb_tipo = x.tb_tipo := by
  dsimp only [advance_server_game, set_current_server_from_order, CADENA_VACIA]
  all_goals split_ifs <;> rfl

@[simp] theorem asg_tb_target (e1 e2 : Team) (x : SessionState) :
    (advance_server_game e1 e2 x).tb_target = x.tb_target := by
  dsimp only [advance_server_game, set_current_server_from_order, CADENA_VACIA]
  all_goals split_ifs <;> rfl

@[simp] theorem asg_tb_pts (e1 e2 : Team) (x : SessionState) :
    (advance_server_game e1 e2 x).tb_pts = x.tb_pts := by
  dsimp only [advance_server_game, set_current_server_from_order, CADENA_VACIA]
  all_goals split_ifs <;> rfl

@[simp] theorem asg_tb_rotation (e1 e2 : Team) (x : SessionState) :
    (advance_server_game e1 e2 x).tb_rotation = x.tb_rotation := by
  dsimp only [advance_server_game, set_current_server_from_order, CADENA_VACIA]
  all_goals split_ifs <;> rfl

@[simp] theorem asg_tb_start_idx (e1 e2 : Team) (x : SessionState) :
    (advance_server_game e1 e2 x).tb_start_idx = x.tb_start_idx := by
  dsimp only [advance_server_game, set_current_server_from_order, CADENA_VACIA]
  all_goals split_ifs <;> rfl

@[simp] theorem asg_super_tb_first (e1 e2 : Team) (x : SessionState) :
    (advance_server_game e1 e2 x).super_tb_first = x.super_tb_first := by
  dsimp only [advance_server_game, set_current_server_from_order, CADENA_VACIA]
  all_goals split_ifs <;> rfl

@[simp] theorem asg_super_tb_second (e1 e2 : Team) (x : SessionState) :
    (advance_server_game e1 e2 x).super_tb_second = x.super_tb_second := by
  dsimp only [advance_server_game, set_current_server_from_order, CADENA_VACIA]
  all_goals split_ifs <;> rfl

@[simp] theorem asg_super_tb_ready (e1 e2 : Team) (x : SessionState) :
    (advance_server_game e1 e2 x).super_tb_ready = x.super_tb_ready := by
  dsimp only [advance_server_game, set_current_server_from_order, CADENA_VACIA]
  all_goals split_ifs <;> rfl

@[simp] theorem asg_star_adv_count (e1 e2 : Team) (x : SessionState) :
    (advance_server_game e1 e2 x).star_adv_count = x.star_adv_count := by
  dsimp only [advance_server_game, set_current_server_from_order, CADENA_VACIA]
  all_goals split_ifs <;> rfl

@[simp] theorem asg_star_golden_active (e1 e2 : Team) (x : SessionState) :
    (advance_server_game e1 e2 x).star_golden_active = x.star_golden_active := by
  dsimp only [advance_server_game, set_current_server_from_order, CADENA_VACIA]
  all_goals split_ifs <;> rfl

@[simp] theorem asg_golden_receiver (e1 e2 : Team) (x : SessionState) :
    (advance_server_game e1 e2 x).golden_receiver = x.golden_receiver := by
  dsimp only [advance_server_game, set_current_server_from_order, CADENA_VACIA]
  all_goals split_ifs <;> rfl

@[simp] theorem asg_server_order (e1 e2 : Team) (x : SessionState) :
    (advance_server_game e1 e2 x).server_order = x.server_order := by
  dsimp only [advance_server_game, set_current_server_from_order, CADENA_VACIA]
  all_goals split_ifs <;> rfl

@[simp] theorem asg_server_index (e1 e2 : Team) (x : SessionState) :
    (advance_server_game e1 e2 x).server_index = if x.server_order = [] then x.server_index else (x.server_index + 1) % 4 := by
  dsimp only [advance_server_game, set_current_server_from_order, CADENA_VACIA]
  split_ifs <;> simp_all [Nat.mod_mod]

@[simp] theorem asg_team_first_server (e1 e2 : Team) (x : SessionState) :
    (advance_server_game e1 e2 x).team_first_server = x.team_first_server := by
  dsimp only [advance_server_game, set_current_server_from_order, CADENA_VACIA]
  all_goals split_ifs <;> rfl

@[simp] theorem asg_pending_other_team_pick (e1 e2 : Team) (x : SessionState) :
    (advance_server_game e1 e2 x).pending_other_team_pick = x.pending_other_team_pick := by
  dsimp only [advance_server_game, set_current_server_from_order, CADENA_VACIA]
  all_goals split_ifs <;> rfl

@[simp] theorem asg_need_other_team_pick_now (e1 e2 : Team) (x : SessionState) :
    (advance_server_game e1 e2 x).need_other_team_pick_now = x.need_other_team_pick_now := by
  dsimp only [advance_server_game, set_current_server_from_order, CADENA_VACIA]
  all_goals split_ifs <;> rfl

@[simp] theorem asg_first_server_of_set (e1 e2 : Team) (x : SessionState) :
    (advance_server_game e1 e2 x).first_server_of_set = x.first_server_of_set := by
  dsimp only [advance_server_game, set_current_server_from_order, CADENA_VACIA]
  all_goals split_ifs <;> rfl

@[simp] theorem asg_current_server (e1 e2 : Team) (x : SessionState) :
    (advance_server_game e1 e2 x).current_server = if x.server_order = [] then x.current_server else x.server_order.getD ((x.server_index + 1) % 4) CADENA_VACIA := by
  dsimp only [advance_server_game, set_current_server_from_order, CADENA_VACIA]
  split_ifs <;> simp_all [Nat.mod_mod]

@[simp] theorem asg_server_team (e1 e2 : Team) (x : SessionState) :
    (advance_server_game e1 e2 x).server_team = if x.server_order = [] then x.server_team else equipo_de (x.server_order.getD ((x.server_index + 1) % 4) CADENA_VACIA) e1 e2 := by
  dsimp only [advance_server_game, set_current_server_from_order, CADENA_VACIA]
  split_ifs <;> simp_all [Nat.mod_mod]

@[simp] theorem asg_formato_partido (e1 e2 : Team) (x : SessionState) :
    (advance_server_game e1 e2 x).formato_partido = x.formato_partido := by
  dsimp only [advance_server_game, set_current_server_from_order, CADENA_VACIA]
  all_goals split_ifs <;> rfl

@[simp] theorem asg_sel_saque_estado (e1 e2 : Team) (x : SessionState) :
    (advance_server_game e1 e2 x).sel_saque_estado = x.sel_saque_estado := by
  dsimp only [advance_server_game, set_current_server_from_order, CADENA_VACIA]
  all_goals split_ifs <;> rfl

@[simp] theorem asg_sel_resultado (e1 e2 : Team) (x : SessionState) :
    (advance_server_game e1 e2 x).sel_resultado = x.sel_resultado := by
  dsimp only [advance_server_game, set_current_server_from_order, CADENA_VACIA]
  all_goals split_ifs <;> rfl

@[simp] theorem asg_sel_golpe (e1 e2 : Team) (x : SessionState) :
    (advance_server_game e1 e2 x).sel_golpe = x.sel_golpe := by
  dsimp only [advance_server_game, set_current_server_from_order, CADENA_VACIA]
  all_goals split_ifs <;> rfl

@[simp] theorem asg_sel_actor (e1 e2 : Team) (x : SessionState) :
    (advance_server_game e1 e2 x).sel_actor = x.sel_actor := by
  dsimp only [advance_server_game, set_current_server_from_order, CADENA_VACIA]
  all_goals split_ifs <;> rfl

@[simp] theorem asg_sel_provocador (e1 e2 : Team) (x : SessionState) :
    (advance_server_game e1 e2 x).sel_provocador = x.sel_provocador := by
  dsimp only [advance_server_game, set_current_server_from_order, CADENA_VACIA]
  all_goals split_ifs <;> rfl

@[simp] theorem asg_sel_asistencia (e1 e2 : Team) (x : SessionState) :
    (advance_server_game e1 e2 x).sel_asistencia = x.sel_asistencia := by
  dsimp only [advance_server_game, set_current_server_from_order, CADENA_VACIA]
  all_goals split_ifs <;> rfl

@[simp] theorem asg_sel_asistente (e1 e2 : Team) (x : SessionState) :
    (advance_server_game e1 e2 x).sel_asistente = x.sel_asistente := by
  dsimp only [advance_server_game, set_current_server_from_order, CADENA_VACIA]
  all_goals split_ifs <;> rfl

@[simp] theorem atb_match_over (tipo : String) (target : Nat) (e1 e2 : Team) (x : SessionState) :
    (_activar_tb tipo target e1 e2 x).match_over = x.match_over := by
  dsimp only [_activar_tb, reset_star_game_state, CADENA_VACIA]
  all_goals split_ifs <;> rfl

@[simp] theorem atb_sets (tipo : String) (target : Nat) (e1 e2 : Team) (x : SessionState) :
    (_activar_tb tipo target e1 e2 x).sets = x.sets := by
  dsimp only [_activar_tb, reset_star_game_state, CADENA_VACIA]
  all_goals split_ifs <;> rfl

@[simp] theorem atb_games (tipo : String) (target : Nat) (e1 e2 : Team) (x : SessionState) :
    (_activar_tb tipo target e1 e2 x).games = x.games := by
  dsimp only [_activar_tb, reset_star_game_state, CADENA_VACIA]
  all_goals split_ifs <;> rfl

@[simp] theorem atb_pts (tipo : String) (target : Nat) (e1 e2 : Team) (x : SessionState) :
    (_activar_tb tipo target e1 e2 x).pts = x.pts := by
  dsimp only [_activar_tb, reset_star_game_state, CADENA_VACIA]
  all_goals split_ifs <;> rfl

@[simp] theorem atb_adv (tipo : String) (target : Nat) (e1 e2 : Team) (x : SessionState) :
    (_activar_tb tipo target e1 e2 x).adv = x.adv := by
  dsimp only [_activar_tb, reset_star_game_state, CADENA_VACIA]
  all_goals split_ifs <;> rfl

@[simp] theorem atb_in_tb (tipo : String) (target : Nat) (e1 e2 : Team) (x : SessionState) :
    (_activar_tb tipo target e1 e2 x).in_tb = true := by
  dsimp only [_activar_tb, reset_star_game_state, CADENA_VACIA]
  all_goals split_ifs <;> rfl

@[simp] theorem atb_tb_tipo (tipo : String) (target : Nat) (e1 e2 : Team) (x : SessionState) :
    (_activar_tb tipo target e1 e2 x).tb_tipo = tipo := by
  dsimp only [_activar_tb, reset_star_game_state, CADENA_VACIA]
  all_goals split_ifs <;> rfl

@[simp] theorem atb_tb_target (tipo : String) (target : Nat) (e1 e2 : Team) (x : SessionState) :
    (_activar_tb tipo target e1 e2 x).tb_target = target := by
  dsimp only [_activar_tb, reset_star_game_state, CADENA_VACIA]
  all_goals split_ifs <;> rfl

@[simp] theorem atb_tb_pts (tipo : String) (target : Nat) (e1 e2 : Team) (x : SessionState) :
    (_activar_tb tipo target e1 e2 x).tb_pts = (0, 0) := by
  dsimp only [_activar_tb, reset_star_game_state, CADENA_VACIA]
  all_goals split_ifs <;> rfl

@[simp] theorem atb_tb_rotation (tipo : String) (target : Nat) (e1 e2 : Team) (x : SessionState) :
    (_activar_tb tipo target e1 e2 x).tb_rotation = if tipo = "SET" then (if ¬ x.server_order = [] then x.server_order else []) else if tipo = "SUPER" then [] else x.tb_rotation := by
  dsimp only [_activar_tb, reset_star_game_state, CADENA_VACIA]
  all_goals split_ifs <;> rfl

@[simp] theorem atb_tb_start_idx (tipo : String) (target : Nat) (e1 e2 : Team) (x : SessionState) :
    (_activar_tb tipo target e1 e2 x).tb_start_idx = if tipo = "SET" then (if ¬ x.server_order = [] then (x.server_index + 1) % 4 else 0) else if tipo = "SUPER" then 0 else x.tb_start_idx := by
  dsimp only [_activar_tb, reset_star_game_state, CADENA_VACIA]
  all_goals split_ifs <;> rfl

@[simp] theorem atb_super_tb_first (tipo : String) (target : Nat) (e1 e2 : Team) (x : SessionState) :
    (_activar_tb tipo target e1 e2 x).super_tb_first = if tipo = "SET" then x.super_tb_first else if tipo = "SUPER" then CADENA_VACIA else x.super_tb_first := by
  dsimp only [_activar_tb, reset_star_game_state, CADENA_VACIA]
  all_goals split_ifs <;> rfl

@[simp] theorem atb_super_tb_second (tipo : String) (target : Nat) (e1 e2 : Team) (x : SessionState) :
    (_activar_tb tipo target e1 e2 x).super_tb_second = if tipo = "SET" then x.super_tb_second else if tipo = "SUPER" then CADENA_VACIA else x.super_tb_second := by
  dsimp only [_activar_tb, reset_star_game_state, CADENA_VACIA]
  all_goals split_ifs <;> rfl

@[simp] theorem atb_super_tb_ready (tipo : String) (target : Nat) (e1 e2 : Team) (x : SessionState) :
    (_activar_tb tipo target e1 e2 x).super_tb_ready = if tipo = "SET" then true else if tipo = "SUPER" then false else x.super_tb_ready := by
  dsimp only [_activar_tb, reset_star_game_state, CADENA_VACIA]
  all_goals split_ifs <;> rfl

@[simp] theorem atb_star_adv_count (tipo : String) (target : Nat) (e1 e2 : Team) (x : SessionState) :
    (_activar_tb tipo target e1 e2 x).star_adv_count = 0 := by
  dsimp only [_activar_tb, reset_star_game_state, CADENA_VACIA]
  all_goals split_ifs <;> rfl

@[simp] theorem atb_star_golden_active (tipo : String) (target : Nat) (e1 e2 : Team) (x : SessionState) :
    (_activar_tb tipo target e1 e2 x).star_golden_active = false := by
  dsimp only [_activar_tb, reset_star_game_state, CADENA_VACIA]
  all_goals split_ifs <;> rfl

@[simp] theorem atb_golden_receiver (tipo : String) (target : Nat) (e1 e2 : Team) (x : SessionState) :
    (_activar_tb tipo target e1 e2 x).golden_receiver = CADENA_VACIA := by
  dsimp only [_activar_tb, reset_star_game_state, CADENA_VACIA]
  all_goals split_ifs <;> rfl

@[simp] theorem atb_server_order (tipo : String) (target : Nat) (e1 e2 : Team) (x : SessionState) :
    (_activar_tb tipo target e1 e2 x).server_order = x.server_order := by
  dsimp only [_activar_tb, reset_star_game_state, CADENA_VACIA]
  all_goals split_ifs <;> rfl

@[simp] theorem atb_server_index (tipo : String) (target : Nat) (e1 e2 : Team) (x : SessionState) :
    (_activar_tb tipo target e1 e2 x).server_index = x.server_index := by
  dsimp only [_activar_tb, reset_star_game_state, CADENA_VACIA]
  all_goals split_ifs <;> rfl

@[simp] theorem atb_team_first_server (tipo : String) (target : Nat) (e1 e2 : Team) (x : SessionState) :
    (_activar_tb tipo target e1 e2 x).team_first_server = x.team_first_server := by
  dsimp only [_activar_tb, reset_star_game_state, CADENA_VACIA]
  all_goals split_ifs <;> rfl

@[simp] theorem atb_pending_other_team_pick (tipo : String) (target : Nat) (e1 e2 : Team) (x : SessionState) :
    (_activar_tb tipo target e1 e2 x).pending_other_team_pick = x.pending_other_team_pick := by
  dsimp only [_activar_tb, reset_star_game_state, CADENA_VACIA]
  all_goals split_ifs <;> rfl

@[simp] theorem atb_need_other_team_pick_now (tipo : String) (target : Nat) (e1 e2 : Team) (x : SessionState) :
    (_activar_tb tipo target e1 e2 x).need_other_team_pick_now = x.need_other_team_pick_now := by
  dsimp only [_activar_tb, reset_star_game_state, CADENA_VACIA]
  all_goals split_ifs <;> rfl

@[simp] theorem atb_first_server_of_set (tipo : String) (target : Nat) (e1 e2 : Team) (x : SessionState) :
    (_activar_tb tipo target e1 e2 x).first_server_of_set = x.first_server_of_set := by
  dsimp only [_activar_tb, reset_star_game_state, CADENA_VACIA]
  all_goals split_ifs <;> rfl

@[simp] theorem atb_current_server (tipo : String) (target : Nat) (e1 e2 : Team) (x : SessionState) :
    (_activar_tb tipo target e1 e2 x).current_server = CADENA_VACIA := by
  dsimp only [_activar_tb, reset_star_game_state, CADENA_VACIA]
  all_goals split_ifs <;> rfl

@[simp] theorem atb_server_team (tipo : String) (target : Nat) (e1 e2 : Team) (x : SessionState) :
    (_activar_tb tipo target e1 e2 x).server_team = 0 := by
  dsimp only [_activar_tb, reset_star_game_state, CADENA_VACIA]
  all_goals split_ifs <;> rfl

@[simp] theorem atb_formato_partido (tipo : String) (target : Nat) (e1 e2 : Team) (x : SessionState) :
    (_activar_tb tipo target e1 e2 x).formato_partido = x.formato_partido := by
  dsimp only [_activar_tb, reset_star_game_state, CADENA_VACIA]
  all_goals split_ifs <;> rfl

@[simp] theorem atb_sel_saque_estado (tipo : String) (target : Nat) (e1 e2 : Team) (x : SessionState) :
    (_activar_tb tipo target e1 e2 x).sel_saque_estado = x.sel_saque_estado := by
  dsimp only [_activar_tb, reset_star_game_state, CADENA_VACIA]
  all_goals split_ifs <;> rfl

@[simp] theorem atb_sel_resultado (tipo : String) (target : Nat) (e1 e2 : Team) (x : SessionState) :
    (_activar_tb tipo target e1 e2 x).sel_resultado = x.sel_resultado := by
  dsimp only [_activar_tb, reset_star_game_state, CADENA_VACIA]
  all_goals split_ifs <;> rfl

@[simp] theorem atb_sel_golpe (tipo : String) (target : Nat) (e1 e2 : Team) (x : SessionState) :
    (_activar_tb tipo target e1 e2 x).sel_golpe = x.sel_golpe := by
  dsimp only [_activar_tb, reset_star_game_state, CADENA_VACIA]
  all_goals split_ifs <;> rfl

@[simp] theorem atb_sel_actor (tipo : String) (target : Nat) (e1 e2 : Team) (x : SessionState) :
    (_activar_tb tipo target e1 e2 x).sel_actor = x.sel_actor := by
  dsimp only [_activar_tb, reset_star_game_state, CADENA_VACIA]
  all_goals split_ifs <;> rfl

@[simp] theorem atb_sel_provocador (tipo : String) (target : Nat) (e1 e2 : Team) (x : SessionState) :
    (_activar_tb tipo target e1 e2 x).sel_provocador = x.sel_provocador := by
  dsimp only [_activar_tb, reset_star_game_state, CADENA_VACIA]
  all_goals split_ifs <;> rfl

@[simp] theorem atb_sel_asistencia (tipo : String) (target : Nat) (e1 e2 : Team) (x : SessionState) :
    (_activar_tb tipo target e1 e2 x).sel_asistencia = x.sel_asistencia := by
  dsimp only [_activar_tb, reset_star_game_state, CADENA_VACIA]
  all_goals split_ifs <;> rfl

@[simp] theorem atb_sel_asistente (tipo : String) (target : Nat) (e1 e2 : Team) (x : SessionState) :
    (_activar_tb tipo target e1 e2 x).sel_asistente = x.sel_asistente := by
  dsimp only [_activar_tb, reset_star_game_state, CADENA_VACIA]
  all_goals split_ifs <;> rfl

@[simp] theorem ttb_match_over (k : Nat) (x : SessionState) :
    (_terminar_tb_y_aplicar_ganador k x).match_over = if x.tb_tipo = "SET" then x.match_over else if x.tb_tipo = "SUPER" then true else x.match_over := by
  dsimp only [_terminar_tb_y_aplicar_ganador, reset_star_game_state, reset_server_order_for_set, CADENA_VACIA]
  all_goals split_ifs <;> rfl

@[simp] theorem ttb_sets (k : Nat) (x : SessionState) :
    (_terminar_tb_y_aplicar_ganador k x).sets = if x.tb_tipo = "SET" then setP x.sets (k - 1) (getP x.sets (k - 1) + 1) else if x.tb_tipo = "SUPER" then setP x.sets (k - 1) (getP x.sets (k - 1) + 1) else x.sets := by
  dsimp only [_terminar_tb_y_aplicar_ganador, reset_star_game_state, reset_server_order_for_set, CADENA_VACIA]
  all_goals split_ifs <;> rfl

@[simp] theorem ttb_games (k : Nat) (x : SessionState) :
    (_terminar_tb_y_aplicar_ganador k x).games = (0, 0) := by
  dsimp only [_terminar_tb_y_aplicar_ganador, reset_star_game_state, reset_server_order_for_set, CADENA_VACIA]
  all_goals split_ifs <;> rfl

@[simp] theorem ttb_pts (k : Nat) (x : SessionState) :
    (_terminar_tb_y_aplicar_ganador k x).pts = (0, 0) := by
  dsimp only [_terminar_tb_y_aplicar_ganador, reset_star_game_state, reset_server_order_for_set, CADENA_VACIA]
  all_goals split_ifs <;> rfl

@[simp] theorem ttb_adv (k : Nat) (x : SessionState) :
    (_terminar_tb_y_aplicar_ganador k x).adv = 0 := by
  dsimp only [_terminar_tb_y_aplicar_ganador, reset_star_game_state, reset_server_order_for_set, CADENA_VACIA]
  all_goals split_ifs <;> rfl

@[simp] theorem ttb_in_tb (k : Nat) (x : SessionState) :
    (_terminar_tb_y_aplicar_ganador k x).in_tb = false := by
  dsimp only [_terminar_tb_y_aplicar_ganador, reset_star_game_state, reset_server_order_for_set, CADENA_VACIA]
  all_goals split_ifs <;> rfl

@[simp] theorem ttb_tb_tipo (k : Nat) (x : SessionState) :
    (_terminar_tb_y_aplicar_ganador k x).tb_tipo = CADENA_VACIA := by
  dsimp only [_terminar_tb_y_aplicar_ganador, reset_star_game_state, reset_server_order_for_set, CADENA_VACIA]
  all_goals split_ifs <;> rfl

@[simp] theorem ttb_tb_target (k : Nat) (x : SessionState) :
    (_terminar_tb_y_aplicar_ganador k x).tb_target = 0 := by
  dsimp only [_terminar_tb_y_aplicar_ganador, reset_star_game_state, reset_server_order_for_set, CADENA_VACIA]
  all_goals split_ifs <;> rfl

@[simp] theorem ttb_tb_pts (k : Nat) (x : SessionState) :
    (_terminar_tb_y_aplicar_ganador k x).tb_pts = (0, 0) := by
  dsimp only [_terminar_tb_y_aplicar_ganador, reset_star_game_state, reset_server_order_for_set, CADENA_VACIA]
  all_goals split_ifs <;> rfl

@[simp] theorem ttb_tb_rotation (k : Nat) (x : SessionState) :
    (_terminar_tb_y_aplicar_ganador k x).tb_rotation = [] := by
  dsimp only [_terminar_tb_y_aplicar_ganador, reset_star_game_state, reset_server_order_for_set, CADENA_VACIA]
  all_goals split_ifs <;> rfl

@[simp] theorem ttb_tb_start_idx (k : Nat) (x : SessionState) :
    (_terminar_tb_y_aplicar_ganador k x).tb_start_idx = 0 := by
  dsimp only [_terminar_tb_y_aplicar_ganador, reset_star_game_state, reset_server_order_for_set, CADENA_VACIA]
  all_goals split_ifs <;> rfl

@[simp] theorem ttb_super_tb_first (k : Nat) (x : SessionState) :
    (_terminar_tb_y_aplicar_ganador k x).super_tb_first = CADENA_VACIA := by
  dsimp only [_terminar_tb_y_aplicar_ganador, reset_star_game_state, reset_server_order_for_set, CADENA_VACIA]
  all_goals split_ifs <;> rfl

@[simp] theorem ttb_super_tb_second (k : Nat) (x : SessionState) :
    (_terminar_tb_y_aplicar_ganador k x).super_tb_second = CADENA_VACIA := by
  dsimp only [_terminar_tb_y_aplicar_ganador, reset_star_game_state, reset_server_order_for_set, CADENA_VACIA]
  all_goals split_ifs <;> rfl

@[simp] theorem ttb_super_tb_ready (k : Nat) (x : SessionState) :
    (_terminar_tb_y_aplicar_ganador k x).super_tb_ready = false := by
  dsimp only [_terminar_tb_y_aplicar_ganador, reset_star_game_state, reset_server_order_for_set, CADENA_VACIA]
  all_goals split_ifs <;> rfl

@[simp] theorem ttb_star_adv_count (k : Nat) (x : SessionState) :
    (_terminar_tb_y_aplicar_ganador k x).star_adv_count = 0 := by
  dsimp only [_terminar_tb_y_aplicar_ganador, reset_star_game_state, reset_server_order_for_set, CADENA_VACIA]
  all_goals split_ifs <;> rfl

@[simp] theorem ttb_star_golden_active (k : Nat) (x : SessionState) :
    (_terminar_tb_y_aplicar_ganador k x).star_golden_active = false := by
  dsimp only [_terminar_tb_y_aplicar_ganador, reset_star_game_state, reset_server_order_for_set, CADENA_VACIA]
  all_goals split_ifs <;> rfl

@[simp] theorem ttb_golden_receiver (k : Nat) (x : SessionState) :
    (_terminar_tb_y_aplicar_ganador k x).golden_receiver = CADENA_VACIA := by
  dsimp only [_terminar_tb_y_aplicar_ganador, reset_star_game_state, reset_server_order_for_set, CADENA_VACIA]
  all_goals split_ifs <;> rfl

@[simp] theorem ttb_server_order (k : Nat) (x : SessionState) :
    (_terminar_tb_y_aplicar_ganador k x).server_order = [] := by
  dsimp only [_terminar_tb_y_aplicar_ganador, reset_star_game_state, reset_server_order_for_set, CADENA_VACIA]
  all_goals split_ifs <;> rfl

@[simp] theorem ttb_server_index (k : Nat) (x : SessionState) :
    (_terminar_tb_y_aplicar_ganador k x).server_index = 0 := by
  dsimp only [_terminar_tb_y_aplicar_ganador, reset_star_game_state, reset_server_order_for_set, CADENA_VACIA]
  all_goals split_ifs <;> rfl

@[simp] theorem ttb_team_first_server (k : Nat) (x : SessionState) :
    (_terminar_tb_y_aplicar_ganador k x).team_first_server = (CADENA_VACIA, CADENA_VACIA) := by
  dsimp only [_terminar_tb_y_aplicar_ganador, reset_star_game_state, reset_server_order_for_set, CADENA_VACIA]
  all_goals split_ifs <;> rfl

@[simp] theorem ttb_pending_other_team_pick (k : Nat) (x : SessionState) :
    (_terminar_tb_y_aplicar_ganador k x).pending_other_team_pick = 0 := by
  dsimp only [_terminar_tb_y_aplicar_ganador, reset_star_game_state, reset_server_order_for_set, CADENA_VACIA]
  all_goals split_ifs <;> rfl

@[simp] theorem ttb_need_other_team_pick_now (k : Nat) (x : SessionState) :
    (_terminar_tb_y_aplicar_ganador k x).need_other_team_pick_now = false := by
  dsimp only [_terminar_tb_y_aplicar_ganador, reset_star_game_state, reset_server_order_for_set, CADENA_VACIA]
  all_goals split_ifs <;> rfl

@[simp] theorem ttb_first_server_of_set (k : Nat) (x : SessionState) :
    (_terminar_tb_y_aplicar_ganador k x).first_server_of_set = CADENA_VACIA := by
  dsimp only [_terminar_tb_y_aplicar_ganador, reset_star_game_state, reset_server_order_for_set, CADENA_VACIA]
  all_goals split_ifs <;> rfl

@[simp] theorem ttb_current_server (k : Nat) (x : SessionState) :
    (_terminar_tb_y_aplicar_ganador k x).current_server = CADENA_VACIA := by
  dsimp only [_terminar_tb_y_aplicar_ganador, reset_star_game_state, reset_server_order_for_set, CADENA_VACIA]
  all_goals split_ifs <;> rfl

@[simp] theorem ttb_server_team (k : Nat) (x : SessionState) :
    (_terminar_tb_y_aplicar_ganador k x).server_team = 0 := by
  dsimp only [_terminar_tb_y_aplicar_ganador, reset_star_game_state, reset_server_order_for_set, CADENA_VACIA]
  all_goals split_ifs <;> rfl

@[simp] theorem ttb_formato_partido (k : Nat) (x : SessionState) :
    (_terminar_tb_y_aplicar_ganador k x).formato_partido = x.formato_partido := by
  dsimp only [_terminar_tb_y_aplicar_ganador, reset_star_game_state, reset_server_order_for_set, CADENA_VACIA]
  all_goals split_ifs <;> rfl

@[simp] theorem ttb_sel_saque_estado (k : Nat) (x : SessionState) :
    (_terminar_tb_y_aplicar_ganador k x).sel_saque_estado = x.sel_saque_estado := by
  dsimp only [_terminar_tb_y_aplicar_ganador, reset_star_game_state, reset_server_order_for_set, CADENA_VACIA]
  all_goals split_ifs <;> rfl

@[simp] theorem ttb_sel_resultado (k : Nat) (x : SessionState) :
    (_terminar_tb_y_aplicar_ganador k x).sel_resultado = x.sel_resultado := by
  dsimp only [_terminar_tb_y_aplicar_ganador, reset_star_game_state, reset_server_order_for_set, CADENA_VACIA]
  all_goals split_ifs <;> rfl

@[simp] theorem ttb_sel_golpe (k : Nat) (x : SessionState) :
    (_terminar_tb_y_aplicar_ganador k x).sel_golpe = x.sel_golpe := by
  dsimp only [_terminar_tb_y_aplicar_ganador, reset_star_game_state, reset_server_order_for_set, CADENA_VACIA]
  all_goals split_ifs <;> rfl

@[simp] theorem ttb_sel_actor (k : Nat) (x : SessionState) :
    (_terminar_tb_y_aplicar_ganador k x).sel_actor = x.sel_actor := by
  dsimp only [_terminar_tb_y_aplicar_ganador, reset_star_game_state, reset_server_order_for_set, CADENA_VACIA]
  all_goals split_ifs <;> rfl

@[simp] theorem ttb_sel_provocador (k : Nat) (x : SessionState) :
    (_terminar_tb_y_aplicar_ganador k x).sel_provocador = x.sel_provocador := by
  dsimp only [_terminar_tb_y_aplicar_ganador, reset_star_game_state, reset_server_order_for_set, CADENA_VACIA]
  all_goals split_ifs <;> rfl

@[simp] theorem ttb_sel_asistencia (k : Nat) (x : SessionState) :
    (_terminar_tb_y_aplicar_ganador k x).sel_asistencia = x.sel_asistencia := by
  dsimp only [_terminar_tb_y_aplicar_ganador, reset_star_game_state, reset_server_order_for_set, CADENA_VACIA]
  all_goals split_ifs <;> rfl

@[simp] theorem ttb_sel_asistente (k : Nat) (x : SessionState) :
    (_terminar_tb_y_aplicar_ganador k x).sel_asistente = x.sel_asistente := by
  dsimp only [_terminar_tb_y_aplicar_ganador, reset_star_game_state, reset_server_order_for_set, CADENA_VACIA]
  all_goals split_ifs <;> rfl

@[simp] theorem gsn_match_over (k : Nat) (x : SessionState) :
    (_ganar_set_normal k x).match_over = if x.formato_partido = "3 sets" ∧ 2 ≤ max (setP x.sets (k - 1) (getP x.sets (k - 1) + 1)).1 (setP x.sets (k - 1) (getP x.sets (k - 1) + 1)).2 then true else if x.formato_partido = "Super tie-break" ∧ 2 ≤ max (setP x.sets (k - 1) (getP x.sets (k - 1) + 1)).1 (setP x.sets (k - 1) (getP x.sets (k - 1) + 1)).2 then true else x.match_over := by
  dsimp only [_ganar_set_normal, reset_star_game_state, reset_server_order_for_set, CADENA_VACIA]
  all_goals split_ifs <;> rfl

@[simp] theorem gsn_sets (k : Nat) (x : SessionState) :
    (_ganar_set_normal k x).sets = setP x.sets (k - 1) (getP x.sets (k - 1) + 1) := by
  dsimp only [_ganar_set_normal, reset_star_game_state, reset_server_order_for_set, CADENA_VACIA]
  all_goals split_ifs <;> rfl

@[simp] theorem gsn_games (k : Nat) (x : SessionState) :
    (_ganar_set_normal k x).games = (0, 0) := by
  dsimp only [_ganar_set_normal, reset_star_game_state, reset_server_order_for_set, CADENA_VACIA]
  all_goals split_ifs <;> rfl

@[simp] theorem gsn_pts (k : Nat) (x : SessionState) :
    (_ganar_set_normal k x).pts = (0, 0) := by
  dsimp only [_ganar_set_normal, reset_star_game_state, reset_server_order_for_set, CADENA_VACIA]
  all_goals split_ifs <;> rfl

@[simp] theorem gsn_adv (k : Nat) (x : SessionState) :
    (_ganar_set_normal k x).adv = 0 := by
  dsimp only [_ganar_set_normal, reset_star_game_state, reset_server_order_for_set, CADENA_VACIA]
  all_goals split_ifs <;> rfl

@[simp] theorem gsn_in_tb (k : Nat) (x : SessionState) :
    (_ganar_set_normal k x).in_tb = x.in_tb := by
  dsimp only [_ganar_set_normal, reset_star_game_state, reset_server_order_for_set, CADENA_VACIA]
  all_goals split_ifs <;> rfl

@[simp] theorem gsn_tb_tipo (k : Nat) (x : SessionState) :
    (_ganar_set_normal k x).tb_tipo = x.tb_tipo := by
  dsimp only [_ganar_set_normal, reset_star_game_state, reset_server_order_for_set, CADENA_VACIA]
  all_goals split_ifs <;> rfl

@[simp] theorem gsn_tb_target (k : Nat) (x : SessionState) :
    (_ganar_set_normal k x).tb_target = x.tb_target := by
  dsimp only [_ganar_set_normal, reset_star_game_state, reset_server_order_for_set, CADENA_VACIA]
  all_goals split_ifs <;> rfl

@[simp] theorem gsn_tb_pts (k : Nat) (x : SessionState) :
    (_ganar_set_normal k x).tb_pts = x.tb_pts := by
  dsimp only [_ganar_set_normal, reset_star_game_state, reset_server_order_for_set, CADENA_VACIA]
  all_goals split_ifs <;> rfl

@[simp] theorem gsn_tb_rotation (k : Nat) (x : SessionState) :
    (_ganar_set_normal k x).tb_rotation = x.tb_rotation := by
  dsimp only [_ganar_set_normal, reset_star_game_state, reset_server_order_for_set, CADENA_VACIA]
  all_goals split_ifs <;> rfl

@[simp] theorem gsn_tb_start_idx (k : Nat) (x : SessionState) :
    (_ganar_set_normal k x).tb_start_idx = x.tb_start_idx := by
  dsimp only [_ganar_set_normal, reset_star_game_state, reset_server_order_for_set, CADENA_VACIA]
  all_goals split_ifs <;> rfl

@[simp] theorem gsn_super_tb_first (k : Nat) (x : SessionState) :
    (_ganar_set_normal k x).super_tb_first = x.super_tb_first := by
  dsimp only [_ganar_set_normal, reset_star_game_state, reset_server_order_for_set, CADENA_VACIA]
  all_goals split_ifs <;> rfl

@[simp] theorem gsn_super_tb_second (k : Nat) (x : SessionState) :
    (_ganar_set_normal k x).super_tb_second = x.super_tb_second := by
  dsimp only [_ganar_set_normal, reset_star_game_state, reset_server_order_for_set, CADENA_VACIA]
  all_goals split_ifs <;> rfl

@[simp] theorem gsn_super_tb_ready (k : Nat) (x : SessionState) :
    (_ganar_set_normal k x).super_tb_ready = x.super_tb_ready := by
  dsimp only [_ganar_set_normal, reset_star_game_state, reset_server_order_for_set, CADENA_VACIA]
  all_goals split_ifs <;> rfl

@[simp] theorem gsn_star_adv_count (k : Nat) (x : SessionState) :
    (_ganar_set_normal k x).star_adv_count = 0 := by
  dsimp only [_ganar_set_normal, reset_star_game_state, reset_server_order_for_set, CADENA_VACIA]
  all_goals split_ifs <;> rfl

@[simp] theorem gsn_star_golden_active (k : Nat) (x : SessionState) :
    (_ganar_set_normal k x).star_golden_active = false := by
  dsimp only [_ganar_set_normal, reset_star_game_state, reset_server_order_for_set, CADENA_VACIA]
  all_goals split_ifs <;> rfl

@[simp] theorem gsn_golden_receiver (k : Nat) (x : SessionState) :
    (_ganar_set_normal k x).golden_receiver = CADENA_VACIA := by
  dsimp only [_ganar_set_normal, reset_star_game_state, reset_server_order_for_set, CADENA_VACIA]
  all_goals split_ifs <;> rfl

@[simp] theorem gsn_server_order (k : Nat) (x : SessionState) :
    (_ganar_set_normal k x).server_order = [] := by
  dsimp only [_ganar_set_normal, reset_star_game_state, reset_server_order_for_set, CADENA_VACIA]
  all_goals split_ifs <;> rfl

@[simp] theorem gsn_server_index (k : Nat) (x : SessionState) :
    (_ganar_set_normal k x).server_index = 0 := by
  dsimp only [_ganar_set_normal, reset_star_game_state, reset_server_order_for_set, CADENA_VACIA]
  all_goals split_ifs <;> rfl

@[simp] theorem gsn_team_first_server (k : Nat) (x : SessionState) :
    (_ganar_set_normal k x).team_first_server = (CADENA_VACIA, CADENA_VACIA) := by
  dsimp only [_ganar_set_normal, reset_star_game_state, reset_server_order_for_set, CADENA_VACIA]
  all_goals split_ifs <;> rfl

@[simp] theorem gsn_pending_other_team_pick (k : Nat) (x : SessionState) :
    (_ganar_set_normal k x).pending_other_team_pick = 0 := by
  dsimp only [_ganar_set_normal, reset_star_game_state, reset_server_order_for_set, CADENA_VACIA]
  all_goals split_ifs <;> rfl

@[simp] theorem gsn_need_other_team_pick_now (k : Nat) (x : SessionState) :
    (_ganar_set_normal k x).need_other_team_pick_now = false := by
  dsimp only [_ganar_set_normal, reset_star_game_state, reset_server_order_for_set, CADENA_VACIA]
  all_goals split_ifs <;> rfl

@[simp] theorem gsn_first_server_of_set (k : Nat) (x : SessionState) :
    (_ganar_set_normal k x).first_server_of_set = CADENA_VACIA := by
  dsimp only [_ganar_set_normal, reset_star_game_state, reset_server_order_for_set, CADENA_VACIA]
  all_goals split_ifs <;> rfl

@[simp] theorem gsn_current_server (k : Nat) (x : SessionState) :
    (_ganar_set_normal k x).current_server = CADENA_VACIA := by
  dsimp only [_ganar_set_normal, reset_star_game_state, reset_server_order_for_set, CADENA_VACIA]
  all_goals split_ifs <;> rfl

@[simp] theorem gsn_server_team (k : Nat) (x : SessionState) :
    (_ganar_set_normal k x).server_team = 0 := by
  dsimp only [_ganar_set_normal, reset_star_game_state, reset_server_order_for_set, CADENA_VACIA]
  all_goals split_ifs <;> rfl

@[simp] theorem gsn_formato_partido (k : Nat) (x : SessionState) :
    (_ganar_set_normal k x).formato_partido = x.formato_partido := by
  dsimp only [_ganar_set_normal, reset_star_game_state, reset_server_order_for_set, CADENA_VACIA]
  all_goals split_ifs <;> rfl

@[simp] theorem gsn_sel_saque_estado (k : Nat) (x : SessionState) :
    (_ganar_set_normal k x).sel_saque_estado = x.sel_saque_estado := by
  dsimp only [_ganar_set_normal, reset_star_game_state, reset_server_order_for_set, CADENA_VACIA]
  all_goals split_ifs <;> rfl

@[simp] theorem gsn_sel_resultado (k : Nat) (x : SessionState) :
    (_ganar_set_normal k x).sel_resultado = x.sel_resultado := by
  dsimp only [_ganar_set_normal, reset_star_game_state, reset_server_order_for_set, CADENA_VACIA]
  all_goals split_ifs <;> rfl

@[simp] theorem gsn_sel_golpe (k : Nat) (x : SessionState) :
    (_ganar_set_normal k x).sel_golpe = x.sel_golpe := by
  dsimp only [_ganar_set_normal, reset_star_game_state, reset_server_order_for_set, CADENA_VACIA]
  all_goals split_ifs <;> rfl

@[simp] theorem gsn_sel_actor (k : Nat) (x : SessionState) :
    (_ganar_set_normal k x).sel_actor = x.sel_actor := by
  dsimp only [_ganar_set_normal, reset_star_game_state, reset_server_order_for_set, CADENA_VACIA]
  all_goals split_ifs <;> rfl

@[simp] theorem gsn_sel_provocador (k : Nat) (x : SessionState) :
    (_ganar_set_normal k x).sel_provocador = x.sel_provocador := by
  dsimp only [_ganar_set_normal, reset_star_game_state, reset_server_order_for_set, CADENA_VACIA]
  all_goals split_ifs <;> rfl

@[simp] theorem gsn_sel_asistencia (k : Nat) (x : SessionState) :
    (_ganar_set_normal k x).sel_asistencia = x.sel_asistencia := by
  dsimp only [_ganar_set_normal, reset_star_game_state, reset_server_order_for_set, CADENA_VACIA]
  all_goals split_ifs <;> rfl

@[simp] theorem gsn_sel_asistente (k : Nat) (x : SessionState) :
    (_ganar_set_normal k x).sel_asistente = x.sel_asistente := by
  dsimp only [_ganar_set_normal, reset_star_game_state, reset_server_order_for_set, CADENA_VACIA]
  all_goals split_ifs <;> rfl

/-! ## Shared lemmas about `ganar_juego` -/

theorem incP_le (p : Nat × Nat) (i : Nat) :
    p.1 ≤ (setP p i (getP p i + 1)).1 ∧ p.2 ≤ (setP p i (getP p i + 1)).2 := by
  unfold setP getP
  split_ifs <;> simp

theorem incP_ne (p : Nat × Nat) (i : Nat) : ¬ setP p i (getP p i + 1) = p := by
  unfold setP getP
  split_ifs <;> simp [Prod.ext_iff]

/-- Every path through `ganar_juego` leaves the ordinary point counters reset. -/
theorem gj_pts (eq : Nat) (e1 e2 : Team) (s : SessionState) :
    (ganar_juego eq e1 e2 s).pts = (0, 0) := by
  simp [ganar_juego, _check_activar_super_tb_si_corresponde, apply_ite SessionState.pts]

/-- `ganar_juego` never decreases either set counter. -/
theorem gj_sets_le (eq : Nat) (e1 e2 : Team) (s : SessionState) :
    s.sets.1 ≤ (ganar_juego eq e1 e2 s).sets.1 ∧
    s.sets.2 ≤ (ganar_juego eq e1 e2 s).sets.2 := by
  simp only [ganar_juego]
  split_ifs <;>
    simp [_check_activar_super_tb_si_corresponde, apply_ite SessionState.sets, setP, getP] <;>
    split_ifs <;> omega

/-- After `ganar_juego` the game counters either grew componentwise or were
reset to 0-0 by a set win, which always changes the set counters. -/
theorem gj_games (eq : Nat) (e1 e2 : Team) (s : SessionState) :
    (s.games.1 ≤ (ganar_juego eq e1 e2 s).games.1 ∧
     s.games.2 ≤ (ganar_juego eq e1 e2 s).games.2) ∨
    ((ganar_juego eq e1 e2 s).games = (0, 0) ∧
     ¬ (ganar_juego eq e1 e2 s).sets = s.sets) := by
  simp only [ganar_juego]
  split_ifs <;>
    simp [_check_activar_super_tb_si_corresponde, apply_ite SessionState.sets,
      apply_ite SessionState.games, setP, getP, Prod.ext_iff] <;>
    split_ifs <;> omega

/-- `ganar_juego` always changes the game counters or the set counters. -/
theorem gj_changed (eq : Nat) (e1 e2 : Team) (s : SessionState) :
    ¬ (ganar_juego eq e1 e2 s).games = s.games ∨
    ¬ (ganar_juego eq e1 e2 s).sets = s.sets := by
  simp only [ganar_juego]
  split_ifs <;>
    simp [_check_activar_super_tb_si_corresponde, apply_ite SessionState.sets,
      apply_ite SessionState.games, setP, getP, Prod.ext_iff] <;>
    split_ifs <;> omega

/-! ## Claim C1 — tiebreak activation -/

/-- Tiebreak-activation behaviour of a game win at state `s`: the Set tiebreak
(target 7) starts iff the game counters just reached 6-6, and the Super
tiebreak (target 11) starts iff the game win closed a set normally, bringing
the sets to 1-1 under the Super tie-break format. -/
def C1_prop (eq : Nat) (e1 e2 : Team) (s : SessionState) : Prop :=
  let r := ganar_juego eq e1 e2 s
  let ga := setP s.games (eq - 1) (getP s.games (eq - 1) + 1)
  let w := if ga.2 < ga.1 then 1 else 2
  let sa := setP s.sets (w - 1) (getP s.sets (w - 1) + 1)
  ((r.in_tb = true ∧ r.tb_tipo = TB_SET) ↔ ga = (6, 6)) ∧
  (ga = (6, 6) → r.tb_target = 7) ∧
  ((r.in_tb = true ∧ r.tb_tipo = TB_SUPER) ↔
    (¬ ga = (6, 6) ∧ (6 ≤ ga.1 ∨ 6 ≤ ga.2) ∧ 2 ≤ abs_diff ga.1 ga.2 ∧
     sa = (1, 1) ∧ s.formato_partido = FORMATO_SUPER)) ∧
  ((r.in_tb = true ∧ r.tb_tipo = TB_SUPER) → r.tb_target = 11)

/-- C1 (amended): on a game win from a live, non-tiebreak state, the Set
tiebreak activates iff games reach 6-6 and the Super tiebreak activates iff a
normal (non-tiebreak) set win brings the sets to exactly 1-1 under the Super
tie-break format; finishing a tiebreak never activates a tiebreak, so a set
score of 1-1 reached through a set-tiebreak win starts no Super tiebreak. -/
theorem C1_tiebreak_activation (eq : Nat) (e1 e2 : Team) (s t : SessionState)
    (hmo : s.match_over = false) (htb : s.in_tb = false) :
    C1_prop eq e1 e2 s ∧
    (_terminar_tb_y_aplicar_ganador eq t).in_tb = false ∧
    (_terminar_tb_y_aplicar_ganador eq t).tb_tipo = CADENA_VACIA := by
  refine ⟨?_, by simp, by simp⟩
  unfold C1_prop
  simp only [ganar_juego]
  split_ifs <;>
    simp_all [_check_activar_super_tb_si_corresponde, TB_SET, TB_SUPER, FORMATO_SUPER,
      CADENA_VACIA, setP, getP, abs_diff, Prod.ext_iff] <;>
    split_ifs <;> simp_all <;> omega

/-- Match point of a set tiebreak in set 2 of a Super tie-break-format match:
team 1 leads 6-5 in the tiebreak with the sets at 0-1. -/
def sC1 : SessionState :=
  { initial_state FORMATO_SUPER with
    sets := (0, 1), in_tb := true, tb_tipo := TB_SET, tb_target := 7, tb_pts := (6, 5),
    games := (6, 6), tb_rotation := [pA, pC, pB, pD], tb_start_idx := 1,
    current_server := pC, server_team := 2 }

/-- C1 counterexample: team 1 wins the set tiebreak 7-5, the sets reach 1-1
under the Super tie-break format with the match still live, and yet no
tiebreak of any kind is active afterwards — contradicting the claim that the
Super tiebreak activates whenever the sets reach 1-1, regardless of whether
the second set ended in a set-tiebreak win. -/
theorem C1_counterexample :
    (actualizar_marcador 1 MODO_ADVANTAGE e1c e2c sC1).sets = (1, 1) ∧
    (actualizar_marcador 1 MODO_ADVANTAGE e1c e2c sC1).formato_partido = FORMATO_SUPER ∧
    (actualizar_marcador 1 MODO_ADVANTAGE e1c e2c sC1).match_over = false ∧
    (actualizar_marcador 1 MODO_ADVANTAGE e1c e2c sC1).in_tb = false ∧
    (actualizar_marcador 1 MODO_ADVANTAGE e1c e2c sC1).tb_tipo = CADENA_VACIA := by
  decide

/-- Game point of set 2 at games 0-5, sets 1-0, under the Super tie-break
format: a game win by team 2 closes the set normally at 1-1. -/
def sW1 : SessionState :=
  { initial_state FORMATO_SUPER with
    sets := (1, 0), games := (0, 5), server_order := [pA, pC, pB, pD],
    current_server := pA }

/-- Running tiebreak state used to witness the tiebreak-termination clause. -/
def sW1t : SessionState :=
  { initial_state FORMATO_SUPER with
    sets := (0, 1), in_tb := true, tb_tipo := TB_SET, tb_target := 7, tb_pts := (6, 5),
    games := (6, 6), tb_rotation := [pA, pC, pB, pD], tb_start_idx := 1,
    current_server := pC, server_team := 2 }

/-- Witness for C1 at a concrete normal set win to 1-1. -/
theorem C1_tiebreak_activation_witness :
    C1_prop 2 e1c e2c sW1 ∧
    (_terminar_tb_y_aplicar_ganador 2 sW1t).in_tb = false ∧
    (_terminar_tb_y_aplicar_ganador 2 sW1t).tb_tipo = CADENA_VACIA :=
  C1_tiebreak_activation 2 e1c e2c sW1 sW1t rfl rfl

/-! ## Claim C2 — monotonicity of sets and games, point reset on game win -/

/-- Ending a tiebreak of either kind credits a set and resets the games. -/
theorem ttb_bundle (k : Nat) (X : SessionState)
    (h : X.tb_tipo = TB_SET ∨ X.tb_tipo = TB_SUPER) :
    (X.sets.1 ≤ (_terminar_tb_y_aplicar_ganador k X).sets.1 ∧
     X.sets.2 ≤ (_terminar_tb_y_aplicar_ganador k X).sets.2) ∧
    (_terminar_tb_y_aplicar_ganador k X).games = (0, 0) ∧
    ¬ (_terminar_tb_y_aplicar_ganador k X).sets = X.sets := by
  rcases h with h | h <;>
    simp [h, TB_SET, TB_SUPER] <;>
    exact ⟨incP_le _ _, incP_ne _ _⟩

/-- Monotonicity-and-reset behaviour of one accepted point at state `s`:
the set counters never decrease; the game counters never decrease except when
they are reset to 0-0 by a transition that credits a set; and outside a
tiebreak on a live match the ordinary point counters end at (0, 0) exactly
when the point won a game (observable as a change of games or sets). -/
def C2_prop (eq : Nat) (modo : String) (e1 e2 : Team) (s : SessionState) : Prop :=
  let r := actualizar_marcador eq modo e1 e2 s
  (s.sets.1 ≤ r.sets.1 ∧ s.sets.2 ≤ r.sets.2) ∧
  ((s.games.1 ≤ r.games.1 ∧ s.games.2 ≤ r.games.2) ∨
   (r.games = (0, 0) ∧ ¬ r.sets = s.sets)) ∧
  (s.match_over = false → s.in_tb = false →
    (r.pts = (0, 0) ↔ (¬ r.games = s.games ∨ ¬ r.sets = s.sets)))

/-- C2 (amended): across one accepted point, `sets[i]` never decreases and
`games[i]` never decreases unless the point completed a set (normally or by
tiebreak), in which case the games reset to 0-0 with the sets changed; the
ordinary point counters are reset to (0, 0) exactly on a game win. -/
theorem C2_monotonicity_and_reset (eq : Nat) (modo : String) (e1 e2 : Team)
    (s : SessionState)
    (htipo : s.in_tb = true → s.tb_tipo = TB_SET ∨ s.tb_tipo = TB_SUPER) :
    C2_prop eq modo e1 e2 s := by
  unfold C2_prop
  by_cases hmo : s.match_over = true
  · simp [actualizar_marcador, hmo]
  by_cases hit : s.in_tb = true
  · have htt := htipo hit
    simp only [actualizar_marcador]
    rw [if_neg hmo, if_pos hit]
    have hbun := ttb_bundle eq
      { s with tb_pts := setP s.tb_pts (eq - 1) (getP s.tb_pts (eq - 1) + 1) } htt
    split_ifs with hw
    · refine ⟨?_, ?_, ?_⟩
      · exact hbun.1
      · exact Or.inr hbun.2
      · intro _ hitb
        rw [hitb] at hit
        exact absurd hit (by simp)
    · refine ⟨⟨le_rfl, le_rfl⟩, Or.inl ⟨le_rfl, le_rfl⟩, ?_⟩
      intro _ hitb
      rw [hitb] at hit
      exact absurd hit (by simp)
  · simp only [actualizar_marcador]
    rw [if_neg hmo, if_neg hit]
    refine ⟨?_, ?_, ?_⟩
    · split_ifs <;> first
        | exact ⟨le_rfl, le_rfl⟩
        | exact gj_sets_le _ _ _ _
    · split_ifs <;> first
        | exact Or.inl ⟨le_rfl, le_rfl⟩
        | exact gj_games _ _ _ _
    · intro hmo2 hitb
      split_ifs <;>
        first
          | (simp only [gj_pts, true_iff]
             exact gj_changed _ _ _ _)
          | (simp_all [setP, getP, Prod.ext_iff] <;> (try split_ifs at *) <;> omega)

/-- Set point of set 1 for team 2 at games 0-5, points 0-40. -/
def sC2 : SessionState :=
  { initial_state FORMATO_3SETS with
    games := (0, 5), pts := (0, 3), server_order := [pC, pA, pD, pB],
    current_server := pC, server_team := 2 }

/-- C2 counterexample: team 2 wins the point, the game, and with it the set;
its game counter drops from 5 to 0 on the set-closing reset, so `games[i]` is
not non-decreasing from one accepted point to the next as the claim states. -/
theorem C2_counterexample :
    (actualizar_marcador 2 MODO_ADVANTAGE e1c e2c sC2).games.2 < sC2.games.2 := by
  decide

/-- Live set-tiebreak state at 6-5, one point from taking the set. -/
def sW2 : SessionState :=
  { initial_state FORMATO_3SETS with
    sets := (0, 1), in_tb := true, tb_tipo := TB_SET, tb_target := 7, tb_pts := (6, 5),
    games := (6, 6), tb_rotation := [pA, pC, pB, pD], tb_start_idx := 1,
    current_server := pC, server_team := 2 }

/-- Witness for C2 at a concrete tiebreak-ending point. -/
theorem C2_monotonicity_and_reset_witness : C2_prop 1 MODO_ADVANTAGE e1c e2c sW2 :=
  C2_monotonicity_and_reset 1 MODO_ADVANTAGE e1c e2c sW2 (fun _ => Or.inl rfl)

/-! ## Claim C3 — Star Point deuce policy -/

/-- Star Point deuce behaviour of one point won at a 3-3 tie of state `s`:
a point from plain deuce grants advantage and bumps the star counter, turning
golden mode on as soon as the counter reaches 2; an equalizing point clears
the advantage leaving the counter alone; and once golden mode is on, a 3-3
point wins the game outright, while registration demands a golden receiver. -/
def C3_prop (eq : Nat) (e1 e2 : Team) (s : SessionState) : Prop :=
  let r := actualizar_marcador eq MODO_STAR e1 e2 s
  (s.adv = 0 → s.star_golden_active = false →
    r.adv = eq ∧ r.star_adv_count = s.star_adv_count + 1 ∧
    (r.star_golden_active = true ↔ 2 ≤ s.star_adv_count + 1) ∧
    r.pts = s.pts ∧ r.games = s.games ∧ r.sets = s.sets) ∧
  (¬ s.adv = 0 → ¬ s.adv = eq →
    r.adv = 0 ∧ r.star_adv_count = s.star_adv_count ∧
    r.star_golden_active = s.star_golden_active ∧
    r.pts = s.pts ∧ r.games = s.games ∧ r.sets = s.sets) ∧
  (s.adv = 0 → s.star_golden_active = true →
    r = ganar_juego eq e1 e2 s ∧
    (s.golden_receiver = CADENA_VACIA → ¬ s.current_server = CADENA_VACIA →
      validar_punto e1 e2 MODO_STAR s = some MSG_FALTA_RECEPTOR))

/-- C3: under the Star Point policy at a live 3-3 tie, advantage points grant
advantage and count toward golden mode (active from the second advantage on),
equalizers only clear the advantage, and in golden mode the point is
sudden-death: it requires a selected golden receiver before registration and
the accepted point wins the game outright; the receiver selector offers
exactly the two members of the team opposing the current server. -/
theorem C3_star_point_policy (eq : Nat) (e1 e2 : Team) (s : SessionState)
    (hmo : s.match_over = false) (hitb : s.in_tb = false) (hpts : s.pts = (3, 3))
    (hdisj : ¬ e2.1 = e1.1 ∧ ¬ e2.1 = e1.2 ∧ ¬ e2.2 = e1.1 ∧ ¬ e2.2 = e1.2)
    (hsrv : equipo_de s.current_server e1 e2 = 1 ∨ equipo_de s.current_server e1 e2 = 2) :
    C3_prop eq e1 e2 s ∧
    (golden_receiver_options e1 e2 s =
      (if equipo_de s.current_server e1 e2 = 1 then [e2.1, e2.2] else [e1.1, e1.2])) ∧
    equipo_de e1.1 e1 e2 = 1 ∧ equipo_de e1.2 e1 e2 = 1 ∧
    equipo_de e2.1 e1 e2 = 2 ∧ equipo_de e2.2 e1 e2 = 2 := by
  obtain ⟨h1, h2, h3, h4⟩ := hdisj
  have hmo' : ¬ s.match_over = true := by simp [hmo]
  have hitb' : ¬ s.in_tb = true := by simp [hitb]
  refine ⟨?_, ?_, ?_, ?_, ?_, ?_⟩
  · unfold C3_prop
    refine ⟨?_, ?_, ?_⟩
    · intro ha hg
      simp only [actualizar_marcador, MODO_STAR]
      rw [if_neg hmo', if_neg hitb']
      simp [is_star_golden_now, hpts, ha, hg, getP, setP]
      split_ifs with h2c <;> simp_all
    · intro ha hne
      simp only [actualizar_marcador, MODO_STAR]
      rw [if_neg hmo', if_neg hitb']
      simp [is_star_golden_now, hpts, ha, hne, getP, setP]
    · intro ha hg
      constructor
      · simp only [actualizar_marcador, MODO_STAR]
        rw [if_neg hmo', if_neg hitb']
        have hgold : is_star_golden_now "Star Point" s := by
          simp [is_star_golden_now, hitb, hpts, ha, hg]
        simp [hgold]
      · intro hrec hcs
        simp only [CADENA_VACIA] at hrec hcs
        simp [validar_punto, is_star_golden_now, hitb, hpts, ha, hg, hrec, hcs,
          MODO_STAR, MSG_FALTA_RECEPTOR]
  · rcases hsrv with hs1 | hs1 <;> simp [golden_receiver_options, opuesto, hs1]
  · simp [equipo_de]
  · simp [equipo_de]
  · simp [equipo_de, h1, h2]
  · simp [equipo_de, h3, h4]

/-- Golden Star Point deuce: 3-3, no advantage, golden mode already active,
team 1 player serving. -/
def sW3 : SessionState :=
  { initial_state FORMATO_3SETS with
    pts := (3, 3), star_adv_count := 2, star_golden_active := true,
    current_server := pA, server_team := 1, server_order := [pA, pC, pB, pD] }

/-- Witness for C3 at a concrete golden Star Point deuce. -/
theorem C3_star_point_policy_witness :
    C3_prop 2 e1c e2c sW3 ∧
    (golden_receiver_options e1c e2c sW3 =
      (if equipo_de sW3.current_server e1c e2c = 1 then [e2c.1, e2c.2]
       else [e1c.1, e1c.2])) ∧
    equipo_de e1c.1 e1c e2c = 1 ∧ equipo_de e1c.2 e1c e2c = 1 ∧
    equipo_de e2c.1 e1c e2c = 2 ∧ equipo_de e2c.2 e1c e2c = 2 :=
  C3_star_point_policy 2 e1c e2c sW3 rfl rfl rfl (by decide) (by decide)

/-! ## Claim C4 — tiebreak scoring, win condition, and resets -/

/-- Tiebreak scoring behaviour of one point at tiebreak state `s`: the point
increments the scorer's tiebreak counter; the tiebreak ends exactly when the
incremented counters have a team at or above the target with a lead of at
least 2, and in that case the winner's set counter is incremented, a Super
tiebreak (and only a Super tiebreak) sets match-over, every point, game and
tiebreak counter is reset, and the whole rotation state is reset as well. -/
def C4_prop (eq : Nat) (modo : String) (e1 e2 : Team) (s : SessionState) : Prop :=
  let r := actualizar_marcador eq modo e1 e2 s
  let tp := setP s.tb_pts (eq - 1) (getP s.tb_pts (eq - 1) + 1)
  let win := (s.tb_target ≤ tp.1 ∨ s.tb_target ≤ tp.2) ∧ 2 ≤ abs_diff tp.1 tp.2
  (¬ win → r = { s with tb_pts := tp }) ∧
  (win →
    r.sets = setP s.sets (eq - 1) (getP s.sets (eq - 1) + 1) ∧
    (r.match_over = true ↔ s.tb_tipo = TB_SUPER) ∧
    r.games = (0, 0) ∧ r.pts = (0, 0) ∧ r.adv = 0 ∧
    r.in_tb = false ∧ r.tb_tipo = CADENA_VACIA ∧ r.tb_target = 0 ∧ r.tb_pts = (0, 0) ∧
    r.tb_rotation = [] ∧ r.tb_start_idx = 0 ∧
    r.super_tb_first = CADENA_VACIA ∧ r.super_tb_second = CADENA_VACIA ∧ r.super_tb_ready = false ∧
    r.server_order = [] ∧ r.server_index = 0 ∧ r.team_first_server = (CADENA_VACIA, CADENA_VACIA) ∧
    r.pending_other_team_pick = 0 ∧ r.need_other_team_pick_now = false ∧
    r.first_server_of_set = CADENA_VACIA ∧ r.current_server = CADENA_VACIA ∧ r.server_team = 0)

/-- C4 (amended): tiebreak points and the ≥ target, lead ≥ 2 win condition
behave as claimed; on a win all counters reset and the set is credited, with
match-over exactly for a Super tiebreak — but the server-rotation reset is
performed unconditionally, not skipped when match-over is set. -/
theorem C4_tiebreak_scoring (eq : Nat) (modo : String) (e1 e2 : Team) (s : SessionState)
    (hmo : s.match_over = false) (hit : s.in_tb = true)
    (htipo : s.tb_tipo = TB_SET ∨ s.tb_tipo = TB_SUPER) :
    C4_prop eq modo e1 e2 s := by
  have hmo' : ¬ s.match_over = true := by simp [hmo]
  unfold C4_prop
  simp only [actualizar_marcador]
  rw [if_neg hmo', if_pos hit]
  dsimp only
  split_ifs with hw
  · refine ⟨fun hnw => absurd hw hnw, fun _ => ?_⟩
    rcases htipo with h | h <;>
      simp [h, TB_SET, TB_SUPER, CADENA_VACIA, hmo]
  · exact ⟨fun _ => rfl, fun hwin => absurd hwin hw⟩

/-- Match point of a Super tiebreak at 9-10, with player D serving. -/
def sC4 : SessionState :=
  { initial_state FORMATO_SUPER with
    in_tb := true, tb_tipo := TB_SUPER, tb_target := 11, tb_pts := (9, 10),
    tb_rotation := [pC, pA, pD, pB], tb_start_idx := 0, super_tb_first := pC,
    super_tb_second := pA, super_tb_ready := true, current_server := pD,
    server_team := 2 }

/-- C4 counterexample: team 2 takes the Super tiebreak 11-9; match-over is
set, yet the rotation state is still reset — the current server changes from
player D to unset — contradicting the claim that the rotation reset is
skipped when the match is over. -/
theorem C4_counterexample :
    (actualizar_marcador 2 MODO_ADVANTAGE e1c e2c sC4).match_over = true ∧
    ¬ sC4.current_server = CADENA_VACIA ∧
    (actualizar_marcador 2 MODO_ADVANTAGE e1c e2c sC4).current_server = CADENA_VACIA := by
  decide

/-- Match point of a Super tiebreak at 10-9 for team 1. -/
def sW4 : SessionState :=
  { initial_state FORMATO_SUPER with
    in_tb := true, tb_tipo := TB_SUPER, tb_target := 11, tb_pts := (10, 9),
    tb_rotation := [pC, pA, pD, pB], tb_start_idx := 0, super_tb_first := pC,
    super_tb_second := pA, super_tb_ready := true, current_server := pB,
    server_team := 1 }

/-- Witness for C4 at a concrete Super tiebreak match point. -/
theorem C4_tiebreak_scoring_witness : C4_prop 1 MODO_ADVANTAGE e1c e2c sW4 :=
  C4_tiebreak_scoring 1 MODO_ADVANTAGE e1c e2c sW4 rfl rfl (Or.inr rfl)

/-! ## Field-view lemmas, continued -/

@[simp] theorem ens_match_over (e1 e2 : Team) (x : SessionState) :
    (ensure_tb_current_server e1 e2 x).match_over = x.match_over := by
  dsimp only [ensure_tb_current_server, CADENA_VACIA]
  all_goals split_ifs <;> rfl

@[simp] theorem ens_sets (e1 e2 : Team) (x : SessionState) :
    (ensure_tb_current_server e1 e2 x).sets = x.sets := by
  dsimp only [ensure_tb_current_server, CADENA_VACIA]
  all_goals split_ifs <;> rfl

@[simp] theorem ens_games (e1 e2 : Team) (x : SessionState) :
    (ensure_tb_current_server e1 e2 x).games = x.games := by
  dsimp only [ensure_tb_current_server, CADENA_VACIA]
  all_goals split_ifs <;> rfl

@[simp] theorem ens_pts (e1 e2 : Team) (x : SessionState) :
    (ensure_tb_current_server e1 e2 x).pts = x.pts := by
  dsimp only [ensure_tb_current_server, CADENA_VACIA]
  all_goals split_ifs <;> rfl

@[simp] theorem ens_adv (e1 e2 : Team) (x : SessionState) :
    (ensure_tb_current_server e1 e2 x).adv = x.adv := by
  dsimp only [ensure_tb_current_server, CADENA_VACIA]
  all_goals split_ifs <;> rfl

@[simp] theorem ens_in_tb (e1 e2 : Team) (x : SessionState) :
    (ensure_tb_current_server e1 e2 x).in_tb = x.in_tb := by
  dsimp only [ensure_tb_current_server, CADENA_VACIA]
  all_goals split_ifs <;> rfl

@[simp] theorem ens_tb_tipo (e1 e2 : Team) (x : SessionState) :
    (ensure_tb_current_server e1 e2 x).tb_tipo = x.tb_tipo := by
  dsimp only [ensure_tb_current_server, CADENA_VACIA]
  all_goals split_ifs <;> rfl

@[simp] theorem ens_tb_target (e1 e2 : Team) (x : SessionState) :
    (ensure_tb_current_server e1 e2 x).tb_target = x.tb_target := by
  dsimp only [ensure_tb_current_server, CADENA_VACIA]
  all_goals split_ifs <;> rfl

@[simp] theorem ens_tb_pts (e1 e2 : Team) (x : SessionState) :
    (ensure_tb_current_server e1 e2 x).tb_pts = x.tb_pts := by
  dsimp only [ensure_tb_current_server, CADENA_VACIA]
  all_goals split_ifs <;> rfl

@[simp] theorem ens_tb_rotation (e1 e2 : Team) (x : SessionState) :
    (ensure_tb_current_server e1 e2 x).tb_rotation = x.tb_rotation := by
  dsimp only [ensure_tb_current_server, CADENA_VACIA]
  all_goals split_ifs <;> rfl

@[simp] theorem ens_tb_start_idx (e1 e2 : Team) (x : SessionState) :
    (ensure_tb_current_server e1 e2 x).tb_start_idx = x.tb_start_idx := by
  dsimp only [ensure_tb_current_server, CADENA_VACIA]
  all_goals split_ifs <;> rfl

@[simp] theorem ens_super_tb_first (e1 e2 : Team) (x : SessionState) :
    (ensure_tb_current_server e1 e2 x).super_tb_first = x.super_tb_first := by
  dsimp only [ensure_tb_current_server, CADENA_VACIA]
  all_goals split_ifs <;> rfl

@[simp] theorem ens_super_tb_second (e1 e2 : Team) (x : SessionState) :
    (ensure_tb_current_server e1 e2 x).super_tb_second = x.super_tb_second := by
  dsimp only [ensure_tb_current_server, CADENA_VACIA]
  all_goals split_ifs <;> rfl

@[simp] theorem ens_super_tb_ready (e1 e2 : Team) (x : SessionState) :
    (ensure_tb_current_server e1 e2 x).super_tb_ready = x.super_tb_ready := by
  dsimp only [ensure_tb_current_server, CADENA_VACIA]
  all_goals split_ifs <;> rfl

@[simp] theorem ens_star_adv_count (e1 e2 : Team) (x : SessionState) :
    (ensure_tb_current_server e1 e2 x).star_adv_count = x.star_adv_count := by
  dsimp only [ensure_tb_current_server, CADENA_VACIA]
  all_goals split_ifs <;> rfl

@[simp] theorem ens_star_golden_active (e1 e2 : Team) (x : SessionState) :
    (ensure_tb_current_server e1 e2 x).star_golden_active = x.star_golden_active := by
  dsimp only [ensure_tb_current_server, CADENA_VACIA]
  all_goals split_ifs <;> rfl

@[simp] theorem ens_golden_receiver (e1 e2 : Team) (x : SessionState) :
    (ensure_tb_current_server e1 e2 x).golden_receiver = x.golden_receiver := by
  dsimp only [ensure_tb_current_server, CADENA_VACIA]
  all_goals split_ifs <;> rfl

@[simp] theorem ens_server_order (e1 e2 : Team) (x : SessionState) :
    (ensure_tb_current_server e1 e2 x).server_order = x.server_order := by
  dsimp only [ensure_tb_current_server, CADENA_VACIA]
  all_goals split_ifs <;> rfl

@[simp] theorem ens_server_index (e1 e2 : Team) (x : SessionState) :
    (ensure_tb_current_server e1 e2 x).server_index = x.server_index := by
  dsimp only [ensure_tb_current_server, CADENA_VACIA]
  all_goals split_ifs <;> rfl

@[simp] theorem ens_team_first_server (e1 e2 : Team) (x : SessionState) :
    (ensure_tb_current_server e1 e2 x).team_first_server = x.team_first_server := by
  dsimp only [ensure_tb_current_server, CADENA_VACIA]
  all_goals split_ifs <;> rfl

@[simp] theorem ens_pending_other_team_pick (e1 e2 : Team) (x : SessionState) :
    (ensure_tb_current_server e1 e2 x).pending_other_team_pick = x.pending_other_team_pick := by
  dsimp only [ensure_tb_current_server, CADENA_VACIA]
  all_goals split_ifs <;> rfl

@[simp] theorem ens_need_other_team_pick_now (e1 e2 : Team) (x : SessionState) :
    (ensure_tb_current_server e1 e2 x).need_other_team_pick_now = x.need_other_team_pick_now := by
  dsimp only [ensure_tb_current_server, CADENA_VACIA]
  all_goals split_ifs <;> rfl

@[simp] theorem ens_first_server_of_set (e1 e2 : Team) (x : SessionState) :
    (ensure_tb_current_server e1 e2 x).first_server_of_set = x.first_server_of_set := by
  dsimp only [ensure_tb_current_server, CADENA_VACIA]
  all_goals split_ifs <;> rfl

@[simp] theorem ens_current_server (e1 e2 : Team) (x : SessionState) :
    (ensure_tb_current_server e1 e2 x).current_server = if x.in_tb = false then x.current_server else if x.tb_rotation = [] then CADENA_VACIA else if x.tb_rotation.length < 4 then x.tb_rotation.getD 0 CADENA_VACIA else tb_server_for_point (x.tb_pts.1 + x.tb_pts.2) x.tb_rotation x.tb_start_idx := by
  dsimp only [ensure_tb_current_server, CADENA_VACIA]
  rcases hb : x.in_tb with _ | _ <;> simp [hb] <;> split_ifs <;> rfl

@[simp] theorem ens_server_team (e1 e2 : Team) (x : SessionState) :
    (ensure_tb_current_server e1 e2 x).server_team = if x.in_tb = false then x.server_team else if x.tb_rotation = [] then 0 else if x.tb_rotation.length < 4 then equipo_de (x.tb_rotation.getD 0 CADENA_VACIA) e1 e2 else equipo_de (tb_server_for_point (x.tb_pts.1 + x.tb_pts.2) x.tb_rotation x.tb_start_idx) e1 e2 := by
  dsimp only [ensure_tb_current_server, CADENA_VACIA]
  rcases hb : x.in_tb with _ | _ <;> simp [hb] <;> split_ifs <;> rfl

@[simp] theorem ens_formato_partido (e1 e2 : Team) (x : SessionState) :
    (ensure_tb_current_server e1 e2 x).formato_partido = x.formato_partido := by
  dsimp only [ensure_tb_current_server, CADENA_VACIA]
  all_goals split_ifs <;> rfl

@[simp] theorem ens_sel_saque_estado (e1 e2 : Team) (x : SessionState) :
    (ensure_tb_current_server e1 e2 x).sel_saque_estado = x.sel_saque_estado := by
  dsimp only [ensure_tb_current_server, CADENA_VACIA]
  all_goals split_ifs <;> rfl

@[simp] theorem ens_sel_resultado (e1 e2 : Team) (x : SessionState) :
    (ensure_tb_current_server e1 e2 x).sel_resultado = x.sel_resultado := by
  dsimp only [ensure_tb_current_server, CADENA_VACIA]
  all_goals split_ifs <;> rfl

@[simp] theorem ens_sel_golpe (e1 e2 : Team) (x : SessionState) :
    (ensure_tb_current_server e1 e2 x).sel_golpe = x.sel_golpe := by
  dsimp only [ensure_tb_current_server, CADENA_VACIA]
  all_goals split_ifs <;> rfl

@[simp] theorem ens_sel_actor (e1 e2 : Team) (x : SessionState) :
    (ensure_tb_current_server e1 e2 x).sel_actor = x.sel_actor := by
  dsimp only [ensure_tb_current_server, CADENA_VACIA]
  all_goals split_ifs <;> rfl

@[simp] theorem ens_sel_provocador (e1 e2 : Team) (x : SessionState) :
    (ensure_tb_current_server e1 e2 x).sel_provocador = x.sel_provocador := by
  dsimp only [ensure_tb_current_server, CADENA_VACIA]
  all_goals split_ifs <;> rfl

@[simp] theorem ens_sel_asistencia (e1 e2 : Team) (x : SessionState) :
    (ensure_tb_current_server e1 e2 x).sel_asistencia = x.sel_asistencia := by
  dsimp only [ensure_tb_current_server, CADENA_VACIA]
  all_goals split_ifs <;> rfl

@[simp] theorem ens_sel_asistente (e1 e2 : Team) (x : SessionState) :
    (ensure_tb_current_server e1 e2 x).sel_asistente = x.sel_asistente := by
  dsimp only [ensure_tb_current_server, CADENA_VACIA]
  all_goals split_ifs <;> rfl

@[simp] theorem bfo_match_over (e1 e2 : Team) (x : SessionState) :
    (build_full_server_order e1 e2 x).match_over = x.match_over := by
  dsimp only [build_full_server_order, CADENA_VACIA]
  all_goals split_ifs <;> rfl

@[simp] theorem bfo_sets (e1 e2 : Team) (x : SessionState) :
    (build_full_server_order e1 e2 x).sets = x.sets := by
  dsimp only [build_full_server_order, CADENA_VACIA]
  all_goals split_ifs <;> rfl

@[simp] theorem bfo_games (e1 e2 : Team) (x : SessionState) :
    (build_full_server_order e1 e2 x).games = x.games := by
  dsimp only [build_full_server_order, CADENA_VACIA]
  all_goals split_ifs <;> rfl

@[simp] theorem bfo_pts (e1 e2 : Team) (x : SessionState) :
    (build_full_server_order e1 e2 x).pts = x.pts := by
  dsimp only [build_full_server_order, CADENA_VACIA]
  all_goals split_ifs <;> rfl

@[simp] theorem bfo_adv (e1 e2 : Team) (x : SessionState) :
    (build_full_server_order e1 e2 x).adv = x.adv := by
  dsimp only [build_full_server_order, CADENA_VACIA]
  all_goals split_ifs <;> rfl

@[simp] theorem bfo_in_tb (e1 e2 : Team) (x : SessionState) :
    (build_full_server_order e1 e2 x).in_tb = x.in_tb := by
  dsimp only [build_full_server_order, CADENA_VACIA]
  all_goals split_ifs <;> rfl

@[simp] theorem bfo_tb_tipo (e1 e2 : Team) (x : SessionState) :
    (build_full_server_order e1 e2 x).tb_tipo = x.tb_tipo := by
  dsimp only [build_full_server_order, CADENA_VACIA]
  all_goals split_ifs <;> rfl

@[simp] theorem bfo_tb_target (e1 e2 : Team) (x : SessionState) :
    (build_full_server_order e1 e2 x).tb_target = x.tb_target := by
  dsimp only [build_full_server_order, CADENA_VACIA]
  all_goals split_ifs <;> rfl

@[simp] theorem bfo_tb_pts (e1 e2 : Team) (x : SessionState) :
    (build_full_server_order e1 e2 x).tb_pts = x.tb_pts := by
  dsimp only [build_full_server_order, CADENA_VACIA]
  all_goals split_ifs <;> rfl

@[simp] theorem bfo_tb_rotation (e1 e2 : Team) (x : SessionState) :
    (build_full_server_order e1 e2 x).tb_rotation = x.tb_rotation := by
  dsimp only [build_full_server_order, CADENA_VACIA]
  all_goals split_ifs <;> rfl

@[simp] theorem bfo_tb_start_idx (e1 e2 : Team) (x : SessionState) :
    (build_full_server_order e1 e2 x).tb_start_idx = x.tb_start_idx := by
  dsimp only [build_full_server_order, CADENA_VACIA]
  all_goals split_ifs <;> rfl

@[simp] theorem bfo_super_tb_first (e1 e2 : Team) (x : SessionState) :
    (build_full_server_order e1 e2 x).super_tb_first = x.super_tb_first := by
  dsimp only [build_full_server_order, CADENA_VACIA]
  all_goals split_ifs <;> rfl

@[simp] theorem bfo_super_tb_second (e1 e2 : Team) (x : SessionState) :
    (build_full_server_order e1 e2 x).super_tb_second = x.super_tb_second := by
  dsimp only [build_full_server_order, CADENA_VACIA]
  all_goals split_ifs <;> rfl

@[simp] theorem bfo_super_tb_ready (e1 e2 : Team) (x : SessionState) :
    (build_full_server_order e1 e2 x).super_tb_ready = x.super_tb_ready := by
  dsimp only [build_full_server_order, CADENA_VACIA]
  all_goals split_ifs <;> rfl

@[simp] theorem bfo_star_adv_count (e1 e2 : Team) (x : SessionState) :
    (build_full_server_order e1 e2 x).star_adv_count = x.star_adv_count := by
  dsimp only [build_full_server_order, CADENA_VACIA]
  all_goals split_ifs <;> rfl

@[simp] theorem bfo_star_golden_active (e1 e2 : Team) (x : SessionState) :
    (build_full_server_order e1 e2 x).star_golden_active = x.star_golden_active := by
  dsimp only [build_full_server_order, CADENA_VACIA]
  all_goals split_ifs <;> rfl

@[simp] theorem bfo_golden_receiver (e1 e2 : Team) (x : SessionState) :
    (build_full_server_order e1 e2 x).golden_receiver = x.golden_receiver := by
  dsimp only [build_full_server_order, CADENA_VACIA]
  all_goals split_ifs <;> rfl

@[simp] theorem bfo_server_order (e1 e2 : Team) (x : SessionState) :
    (build_full_server_order e1 e2 x).server_order = if x.team_first_server.1 = CADENA_VACIA ∨ x.team_first_server.2 = CADENA_VACIA then x.server_order else if equipo_de x.first_server_of_set e1 e2 = 1 then [x.team_first_server.1, x.team_first_server.2, if e1.1 = x.team_first_server.1 then e1.2 else e1.1, if e2.1 = x.team_first_server.2 then e2.2 else e2.1] else [x.team_first_server.2, x.team_first_server.1, if e2.1 = x.team_first_server.2 then e2.2 else e2.1, if e1.1 = x.team_first_server.1 then e1.2 else e1.1] := by
  dsimp only [build_full_server_order, CADENA_VACIA]
  all_goals split_ifs <;> rfl

@[simp] theorem bfo_server_index (e1 e2 : Team) (x : SessionState) :
    (build_full_server_order e1 e2 x).server_index = x.server_index := by
  dsimp only [build_full_server_order, CADENA_VACIA]
  all_goals split_ifs <;> rfl

@[simp] theorem bfo_team_first_server (e1 e2 : Team) (x : SessionState) :
    (build_full_server_order e1 e2 x).team_first_server = x.team_first_server := by
  dsimp only [build_full_server_order, CADENA_VACIA]
  all_goals split_ifs <;> rfl

@[simp] theorem bfo_pending_other_team_pick (e1 e2 : Team) (x : SessionState) :
    (build_full_server_order e1 e2 x).pending_other_team_pick = x.pending_other_team_pick := by
  dsimp only [build_full_server_order, CADENA_VACIA]
  all_goals split_ifs <;> rfl

@[simp] theorem bfo_need_other_team_pick_now (e1 e2 : Team) (x : SessionState) :
    (build_full_server_order e1 e2 x).need_other_team_pick_now = x.need_other_team_pick_now := by
  dsimp only [build_full_server_order, CADENA_VACIA]
  all_goals split_ifs <;> rfl

@[simp] theorem bfo_first_server_of_set (e1 e2 : Team) (x : SessionState) :
    (build_full_server_order e1 e2 x).first_server_of_set = x.first_server_of_set := by
  dsimp only [build_full_server_order, CADENA_VACIA]
  all_goals split_ifs <;> rfl

@[simp] theorem bfo_current_server (e1 e2 : Team) (x : SessionState) :
    (build_full_server_order e1 e2 x).current_server = x.current_server := by
  dsimp only [build_full_server_order, CADENA_VACIA]
  all_goals split_ifs <;> rfl

@[simp] theorem bfo_server_team (e1 e2 : Team) (x : SessionState) :
    (build_full_server_order e1 e2 x).server_team = x.server_team := by
  dsimp only [build_full_server_order, CADENA_VACIA]
  all_goals split_ifs <;> rfl

@[simp] theorem bfo_formato_partido (e1 e2 : Team) (x : SessionState) :
    (build_full_server_order e1 e2 x).formato_partido = x.formato_partido := by
  dsimp only [build_full_server_order, CADENA_VACIA]
  all_goals split_ifs <;> rfl

@[simp] theorem bfo_sel_saque_estado (e1 e2 : Team) (x : SessionState) :
    (build_full_server_order e1 e2 x).sel_saque_estado = x.sel_saque_estado := by
  dsimp only [build_full_server_order, CADENA_VACIA]
  all_goals split_ifs <;> rfl

@[simp] theorem bfo_sel_resultado (e1 e2 : Team) (x : SessionState) :
    (build_full_server_order e1 e2 x).sel_resultado = x.sel_resultado := by
  dsimp only [build_full_server_order, CADENA_VACIA]
  all_goals split_ifs <;> rfl

@[simp] theorem bfo_sel_golpe (e1 e2 : Team) (x : SessionState) :
    (build_full_server_order e1 e2 x).sel_golpe = x.sel_golpe := by
  dsimp only [build_full_server_order, CADENA_VACIA]
  all_goals split_ifs <;> rfl

@[simp] theorem bfo_sel_actor (e1 e2 : Team) (x : SessionState) :
    (build_full_server_order e1 e2 x).sel_actor = x.sel_actor := by
  dsimp only [build_full_server_order, CADENA_VACIA]
  all_goals split_ifs <;> rfl

@[simp] theorem bfo_sel_provocador (e1 e2 : Team) (x : SessionState) :
    (build_full_server_order e1 e2 x).sel_provocador = x.sel_provocador := by
  dsimp only [build_full_server_order, CADENA_VACIA]
  all_goals split_ifs <;> rfl

@[simp] theorem bfo_sel_asistencia (e1 e2 : Team) (x : SessionState) :
    (build_full_server_order e1 e2 x).sel_asistencia = x.sel_asistencia := by
  dsimp only [build_full_server_order, CADENA_VACIA]
  all_goals split_ifs <;> rfl

@[simp] theorem bfo_sel_asistente (e1 e2 : Team) (x : SessionState) :
    (build_full_server_order e1 e2 x).sel_asistente = x.sel_asistente := by
  dsimp only [build_full_server_order, CADENA_VACIA]
  all_goals split_ifs <;> rfl

@[simp] theorem pstf_match_over (v : String) (x : SessionState) :
    (pick_super_tb_first v x).match_over = x.match_over := by
  dsimp only [pick_super_tb_first, CADENA_VACIA]
  all_goals split_ifs <;> rfl

@[simp] theorem pstf_sets (v : String) (x : SessionState) :
    (pick_super_tb_first v x).sets = x.sets := by
  dsimp only [pick_super_tb_first, CADENA_VACIA]
  all_goals split_ifs <;> rfl

@[simp] theorem pstf_games (v : String) (x : SessionState) :
    (pick_super_tb_first v x).games = x.games := by
  dsimp only [pick_super_tb_first, CADENA_VACIA]
  all_goals split_ifs <;> rfl

@[simp] theorem pstf_pts (v : String) (x : SessionState) :
    (pick_super_tb_first v x).pts = x.pts := by
  dsimp only [pick_super_tb_first, CADENA_VACIA]
  all_goals split_ifs <;> rfl

@[simp] theorem pstf_adv (v : String) (x : SessionState) :
    (pick_super_tb_first v x).adv = x.adv := by
  dsimp only [pick_super_tb_first, CADENA_VACIA]
  all_goals split_ifs <;> rfl

@[simp] theorem pstf_in_tb (v : String) (x : SessionState) :
    (pick_super_tb_first v x).in_tb = x.in_tb := by
  dsimp only [pick_super_tb_first, CADENA_VACIA]
  all_goals split_ifs <;> rfl

@[simp] theorem pstf_tb_tipo (v : String) (x : SessionState) :
    (pick_super_tb_first v x).tb_tipo = x.tb_tipo := by
  dsimp only [pick_super_tb_first, CADENA_VACIA]
  all_goals split_ifs <;> rfl

@[simp] theorem pstf_tb_target (v : String) (x : SessionState) :
    (pick_super_tb_first v x).tb_target = x.tb_target := by
  dsimp only [pick_super_tb_first, CADENA_VACIA]
  all_goals split_ifs <;> rfl

@[simp] theorem pstf_tb_pts (v : String) (x : SessionState) :
    (pick_super_tb_first v x).tb_pts = x.tb_pts := by
  dsimp only [pick_super_tb_first, CADENA_VACIA]
  all_goals split_ifs <;> rfl

@[simp] theorem pstf_tb_rotation (v : String) (x : SessionState) :
    (pick_super_tb_first v x).tb_rotation = [v] := by
  dsimp only [pick_super_tb_first, CADENA_VACIA]
  all_goals split_ifs <;> rfl

@[simp] theorem pstf_tb_start_idx (v : String) (x : SessionState) :
    (pick_super_tb_first v x).tb_start_idx = 0 := by
  dsimp only [pick_super_tb_first, CADENA_VACIA]
  all_goals split_ifs <;> rfl

@[simp] theorem pstf_super_tb_first (v : String) (x : SessionState) :
    (pick_super_tb_first v x).super_tb_first = v := by
  dsimp only [pick_super_tb_first, CADENA_VACIA]
  all_goals split_ifs <;> rfl

@[simp] theorem pstf_super_tb_second (v : String) (x : SessionState) :
    (pick_super_tb_first v x).super_tb_second = x.super_tb_second := by
  dsimp only [pick_super_tb_first, CADENA_VACIA]
  all_goals split_ifs <;> rfl

@[simp] theorem pstf_super_tb_ready (v : String) (x : SessionState) :
    (pick_super_tb_first v x).super_tb_ready = x.super_tb_ready := by
  dsimp only [pick_super_tb_first, CADENA_VACIA]
  all_goals split_ifs <;> rfl

@[simp] theorem pstf_star_adv_count (v : String) (x : SessionState) :
    (pick_super_tb_first v x).star_adv_count = x.star_adv_count := by
  dsimp only [pick_super_tb_first, CADENA_VACIA]
  all_goals split_ifs <;> rfl

@[simp] theorem pstf_star_golden_active (v : String) (x : SessionState) :
    (pick_super_tb_first v x).star_golden_active = x.star_golden_active := by
  dsimp only [pick_super_tb_first, CADENA_VACIA]
  all_goals split_ifs <;> rfl

@[simp] theorem pstf_golden_receiver (v : String) (x : SessionState) :
    (pick_super_tb_first v x).golden_receiver = x.golden_receiver := by
  dsimp only [pick_super_tb_first, CADENA_VACIA]
  all_goals split_ifs <;> rfl

@[simp] theorem pstf_server_order (v : String) (x : SessionState) :
    (pick_super_tb_first v x).server_order = x.server_order := by
  dsimp only [pick_super_tb_first, CADENA_VACIA]
  all_goals split_ifs <;> rfl

@[simp] theorem pstf_server_index (v : String) (x : SessionState) :
    (pick_super_tb_first v x).server_index = x.server_index := by
  dsimp only [pick_super_tb_first, CADENA_VACIA]
  all_goals split_ifs <;> rfl

@[simp] theorem pstf_team_first_server (v : String) (x : SessionState) :
    (pick_super_tb_first v x).team_first_server = x.team_first_server := by
  dsimp only [pick_super_tb_first, CADENA_VACIA]
  all_goals split_ifs <;> rfl

@[simp] theorem pstf_pending_other_team_pick (v : String) (x : SessionState) :
    (pick_super_tb_first v x).pending_other_team_pick = x.pending_other_team_pick := by
  dsimp only [pick_super_tb_first, CADENA_VACIA]
  all_goals split_ifs <;> rfl

@[simp] theorem pstf_need_other_team_pick_now (v : String) (x : SessionState) :
    (pick_super_tb_first v x).need_other_team_pick_now = x.need_other_team_pick_now := by
  dsimp only [pick_super_tb_first, CADENA_VACIA]
  all_goals split_ifs <;> rfl

@[simp] theorem pstf_first_server_of_set (v : String) (x : SessionState) :
    (pick_super_tb_first v x).first_server_of_set = x.first_server_of_set := by
  dsimp only [pick_super_tb_first, CADENA_VACIA]
  all_goals split_ifs <;> rfl

@[simp] theorem pstf_current_server (v : String) (x : SessionState) :
    (pick_super_tb_first v x).current_server = x.current_server := by
  dsimp only [pick_super_tb_first, CADENA_VACIA]
  all_goals split_ifs <;> rfl

@[simp] theorem pstf_server_team (v : String) (x : SessionState) :
    (pick_super_tb_first v x).server_team = x.server_team := by
  dsimp only [pick_super_tb_first, CADENA_VACIA]
  all_goals split_ifs <;> rfl

@[simp] theorem pstf_formato_partido (v : String) (x : SessionState) :
    (pick_super_tb_first v x).formato_partido = x.formato_partido := by
  dsimp only [pick_super_tb_first, CADENA_VACIA]
  all_goals split_ifs <;> rfl

@[simp] theorem pstf_sel_saque_estado (v : String) (x : SessionState) :
    (pick_super_tb_first v x).sel_saque_estado = x.sel_saque_estado := by
  dsimp only [pick_super_tb_first, CADENA_VACIA]
  all_goals split_ifs <;> rfl

@[simp] theorem pstf_sel_resultado (v : String) (x : SessionState) :
    (pick_super_tb_first v x).sel_resultado = x.sel_resultado := by
  dsimp only [pick_super_tb_first, CADENA_VACIA]
  all_goals split_ifs <;> rfl

@[simp] theorem pstf_sel_golpe (v : String) (x : SessionState) :
    (pick_super_tb_first v x).sel_golpe = x.sel_golpe := by
  dsimp only [pick_super_tb_first, CADENA_VACIA]
  all_goals split_ifs <;> rfl

@[simp] theorem pstf_sel_actor (v : String) (x : SessionState) :
    (pick_super_tb_first v x).sel_actor = x.sel_actor := by
  dsimp only [pick_super_tb_first, CADENA_VACIA]
  all_goals split_ifs <;> rfl

@[simp] theorem pstf_sel_provocador (v : String) (x : SessionState) :
    (pick_super_tb_first v x).sel_provocador = x.sel_provocador := by
  dsimp only [pick_super_tb_first, CADENA_VACIA]
  all_goals split_ifs <;> rfl

@[simp] theorem pstf_sel_asistencia (v : String) (x : SessionState) :
    (pick_super_tb_first v x).sel_asistencia = x.sel_asistencia := by
  dsimp only [pick_super_tb_first, CADENA_VACIA]
  all_goals split_ifs <;> rfl

@[simp] theorem pstf_sel_asistente (v : String) (x : SessionState) :
    (pick_super_tb_first v x).sel_asistente = x.sel_asistente := by
  dsimp only [pick_super_tb_first, CADENA_VACIA]
  all_goals split_ifs <;> rfl

@[simp] theorem psts_match_over (v : String) (e1 e2 : Team) (x : SessionState) :
    (pick_super_tb_second v e1 e2 x).match_over = x.match_over := by
  dsimp only [pick_super_tb_second, CADENA_VACIA]
  all_goals split_ifs <;> rfl

@[simp] theorem psts_sets (v : String) (e1 e2 : Team) (x : SessionState) :
    (pick_super_tb_second v e1 e2 x).sets = x.sets := by
  dsimp only [pick_super_tb_second, CADENA_VACIA]
  all_goals split_ifs <;> rfl

@[simp] theorem psts_games (v : String) (e1 e2 : Team) (x : SessionState) :
    (pick_super_tb_second v e1 e2 x).games = x.games := by
  dsimp only [pick_super_tb_second, CADENA_VACIA]
  all_goals split_ifs <;> rfl

@[simp] theorem psts_pts (v : String) (e1 e2 : Team) (x : SessionState) :
    (pick_super_tb_second v e1 e2 x).pts = x.pts := by
  dsimp only [pick_super_tb_second, CADENA_VACIA]
  all_goals split_ifs <;> rfl

@[simp] theorem psts_adv (v : String) (e1 e2 : Team) (x : SessionState) :
    (pick_super_tb_second v e1 e2 x).adv = x.adv := by
  dsimp only [pick_super_tb_second, CADENA_VACIA]
  all_goals split_ifs <;> rfl

@[simp] theorem psts_in_tb (v : String) (e1 e2 : Team) (x : SessionState) :
    (pick_super_tb_second v e1 e2 x).in_tb = x.in_tb := by
  dsimp only [pick_super_tb_second, CADENA_VACIA]
  all_goals split_ifs <;> rfl

@[simp] theorem psts_tb_tipo (v : String) (e1 e2 : Team) (x : SessionState) :
    (pick_super_tb_second v e1 e2 x).tb_tipo = x.tb_tipo := by
  dsimp only [pick_super_tb_second, CADENA_VACIA]
  all_goals split_ifs <;> rfl

@[simp] theorem psts_tb_target (v : String) (e1 e2 : Team) (x : SessionState) :
    (pick_super_tb_second v e1 e2 x).tb_target = x.tb_target := by
  dsimp only [pick_super_tb_second, CADENA_VACIA]
  all_goals split_ifs <;> rfl

@[simp] theorem psts_tb_pts (v : String) (e1 e2 : Team) (x : SessionState) :
    (pick_super_tb_second v e1 e2 x).tb_pts = x.tb_pts := by
  dsimp only [pick_super_tb_second, CADENA_VACIA]
  all_goals split_ifs <;> rfl

@[simp] theorem psts_tb_rotation (v : String) (e1 e2 : Team) (x : SessionState) :
    (pick_super_tb_second v e1 e2 x).tb_rotation = [x.super_tb_first, v, companero x.super_tb_first e1 e2, companero v e1 e2] := by
  dsimp only [pick_super_tb_second, CADENA_VACIA]
  all_goals split_ifs <;> rfl

@[simp] theorem psts_tb_start_idx (v : String) (e1 e2 : Team) (x : SessionState) :
    (pick_super_tb_second v e1 e2 x).tb_start_idx = 0 := by
  dsimp only [pick_super_tb_second, CADENA_VACIA]
  all_goals split_ifs <;> rfl

@[simp] theorem psts_super_tb_first (v : String) (e1 e2 : Team) (x : SessionState) :
    (pick_super_tb_second v e1 e2 x).super_tb_first = x.super_tb_first := by
  dsimp only [pick_super_tb_second, CADENA_VACIA]
  all_goals split_ifs <;> rfl

@[simp] theorem psts_super_tb_second (v : String) (e1 e2 : Team) (x : SessionState) :
    (pick_super_tb_second v e1 e2 x).super_tb_second = v := by
  dsimp only [pick_super_tb_second, CADENA_VACIA]
  all_goals split_ifs <;> rfl

@[simp] theorem psts_super_tb_ready (v : String) (e1 e2 : Team) (x : SessionState) :
    (pick_super_tb_second v e1 e2 x).super_tb_ready = true := by
  dsimp only [pick_super_tb_second, CADENA_VACIA]
  all_goals split_ifs <;> rfl

@[simp] theorem psts_star_adv_count (v : String) (e1 e2 : Team) (x : SessionState) :
    (pick_super_tb_second v e1 e2 x).star_adv_count = x.star_adv_count := by
  dsimp only [pick_super_tb_second, CADENA_VACIA]
  all_goals split_ifs <;> rfl

@[simp] theorem psts_star_golden_active (v : String) (e1 e2 : Team) (x : SessionState) :
    (pick_super_tb_second v e1 e2 x).star_golden_active = x.star_golden_active := by
  dsimp only [pick_super_tb_second, CADENA_VACIA]
  all_goals split_ifs <;> rfl

@[simp] theorem psts_golden_receiver (v : String) (e1 e2 : Team) (x : SessionState) :
    (pick_super_tb_second v e1 e2 x).golden_receiver = x.golden_receiver := by
  dsimp only [pick_super_tb_second, CADENA_VACIA]
  all_goals split_ifs <;> rfl

@[simp] theorem psts_server_order (v : String) (e1 e2 : Team) (x : SessionState) :
    (pick_super_tb_second v e1 e2 x).server_order = x.server_order := by
  dsimp only [pick_super_tb_second, CADENA_VACIA]
  all_goals split_ifs <;> rfl

@[simp] theorem psts_server_index (v : String) (e1 e2 : Team) (x : SessionState) :
    (pick_super_tb_second v e1 e2 x).server_index = x.server_index := by
  dsimp only [pick_super_tb_second, CADENA_VACIA]
  all_goals split_ifs <;> rfl

@[simp] theorem psts_team_first_server (v : String) (e1 e2 : Team) (x : SessionState) :
    (pick_super_tb_second v e1 e2 x).team_first_server = x.team_first_server := by
  dsimp only [pick_super_tb_second, CADENA_VACIA]
  all_goals split_ifs <;> rfl

@[simp] theorem psts_pending_other_team_pick (v : String) (e1 e2 : Team) (x : SessionState) :
    (pick_super_tb_second v e1 e2 x).pending_other_team_pick = x.pending_other_team_pick := by
  dsimp only [pick_super_tb_second, CADENA_VACIA]
  all_goals split_ifs <;> rfl

@[simp] theorem psts_need_other_team_pick_now (v : String) (e1 e2 : Team) (x : SessionState) :
    (pick_super_tb_second v e1 e2 x).need_other_team_pick_now = x.need_other_team_pick_now := by
  dsimp only [pick_super_tb_second, CADENA_VACIA]
  all_goals split_ifs <;> rfl

@[simp] theorem psts_first_server_of_set (v : String) (e1 e2 : Team) (x : SessionState) :
    (pick_super_tb_second v e1 e2 x).first_server_of_set = x.first_server_of_set := by
  dsimp only [pick_super_tb_second, CADENA_VACIA]
  all_goals split_ifs <;> rfl

@[simp] theorem psts_current_server (v : String) (e1 e2 : Team) (x : SessionState) :
    (pick_super_tb_second v e1 e2 x).current_server = x.current_server := by
  dsimp only [pick_super_tb_second, CADENA_VACIA]
  all_goals split_ifs <;> rfl

@[simp] theorem psts_server_team (v : String) (e1 e2 : Team) (x : SessionState) :
    (pick_super_tb_second v e1 e2 x).server_team = x.server_team := by
  dsimp only [pick_super_tb_second, CADENA_VACIA]
  all_goals split_ifs <;> rfl

@[simp] theorem psts_formato_partido (v : String) (e1 e2 : Team) (x : SessionState) :
    (pick_super_tb_second v e1 e2 x).formato_partido = x.formato_partido := by
  dsimp only [pick_super_tb_second, CADENA_VACIA]
  all_goals split_ifs <;> rfl

@[simp] theorem psts_sel_saque_estado (v : String) (e1 e2 : Team) (x : SessionState) :
    (pick_super_tb_second v e1 e2 x).sel_saque_estado = x.sel_saque_estado := by
  dsimp only [pick_super_tb_second, CADENA_VACIA]
  all_goals split_ifs <;> rfl

@[simp] theorem psts_sel_resultado (v : String) (e1 e2 : Team) (x : SessionState) :
    (pick_super_tb_second v e1 e2 x).sel_resultado = x.sel_resultado := by
  dsimp only [pick_super_tb_second, CADENA_VACIA]
  all_goals split_ifs <;> rfl

@[simp] theorem psts_sel_golpe (v : String) (e1 e2 : Team) (x : SessionState) :
    (pick_super_tb_second v e1 e2 x).sel_golpe = x.sel_golpe := by
  dsimp only [pick_super_tb_second, CADENA_VACIA]
  all_goals split_ifs <;> rfl

@[simp] theorem psts_sel_actor (v : String) (e1 e2 : Team) (x : SessionState) :
    (pick_super_tb_second v e1 e2 x).sel_actor = x.sel_actor := by
  dsimp only [pick_super_tb_second, CADENA_VACIA]
  all_goals split_ifs <;> rfl

@[simp] theorem psts_sel_provocador (v : String) (e1 e2 : Team) (x : SessionState) :
    (pick_super_tb_second v e1 e2 x).sel_provocador = x.sel_provocador := by
  dsimp only [pick_super_tb_second, CADENA_VACIA]
  all_goals split_ifs <;> rfl

@[simp] theorem psts_sel_asistencia (v : String) (e1 e2 : Team) (x : SessionState) :
    (pick_super_tb_second v e1 e2 x).sel_asistencia = x.sel_asistencia := by
  dsimp only [pick_super_tb_second, CADENA_VACIA]
  all_goals split_ifs <;> rfl

@[simp] theorem psts_sel_asistente (v : String) (e1 e2 : Team) (x : SessionState) :
    (pick_super_tb_second v e1 e2 x).sel_asistente = x.sel_asistente := by
  dsimp only [pick_super_tb_second, CADENA_VACIA]
  all_goals split_ifs <;> rfl


/-! ## Claim C5 — submission gating on outstanding server selections -/

/-- Gating of point submission on outstanding server selections at state `s`:
with no server chosen outside a tiebreak the submission is rejected with the
state untouched; in a Super tiebreak the submission is rejected while the
first server is unchosen before point 0, and while the second server is
unchosen before point 1; once the second-server setter has run, submission
reaches the registration engine; and a game win with the other team's pick
still missing clears the current server, so the engine keeps rejecting. -/
def C5_prop (eq : Nat) (sec : String) (e1 e2 : Team) (modo : String)
    (s : SessionState) : Prop :=
  (s.in_tb = false → s.current_server = CADENA_VACIA →
    (submit_point e1 e2 modo s).2.2.isSome = true ∧
    (submit_point e1 e2 modo s).2.1 = none ∧ (submit_point e1 e2 modo s).1 = s) ∧
  (s.in_tb = true → s.tb_tipo = TB_SUPER → s.tb_pts = (0, 0) →
    s.super_tb_first = CADENA_VACIA →
    (submit_point e1 e2 modo s).2.1 = none ∧
    (submit_point e1 e2 modo s).2.2 = some MSG_SUPER_TB_PRIMERO) ∧
  (s.in_tb = true → s.tb_tipo = TB_SUPER → s.tb_pts.1 + s.tb_pts.2 = 1 →
    ¬ s.super_tb_first = CADENA_VACIA → s.super_tb_second = CADENA_VACIA →
    (submit_point e1 e2 modo s).2.1 = none ∧
    (submit_point e1 e2 modo s).2.2 = some MSG_SUPER_TB_SEGUNDO) ∧
  (s.in_tb = true → s.tb_tipo = TB_SUPER → ¬ s.super_tb_first = CADENA_VACIA →
    ¬ sec = CADENA_VACIA →
    submit_point e1 e2 modo (pick_super_tb_second sec e1 e2 s) =
      registrar_evento e1 e2 modo
        (ensure_tb_current_server e1 e2
          (ensure_tb_current_server e1 e2 (pick_super_tb_second sec e1 e2 s)))) ∧
  (s.games = (0, 0) → s.server_order = [] →
    (s.pending_other_team_pick = 1 ∨ s.pending_other_team_pick = 2) →
    (ganar_juego eq e1 e2 s).current_server = CADENA_VACIA ∧
    (ganar_juego eq e1 e2 s).need_other_team_pick_now = true)

/-- C5: no point is accepted while a required server selection is
outstanding; each pending situation rejects the submission, and the dedicated
setter resolves the Super-tiebreak phase so submission reaches the engine. -/
theorem C5_selection_gating (eq : Nat) (sec : String) (e1 e2 : Team) (modo : String)
    (s : SessionState) (heq : eq = 1 ∨ eq = 2) :
    C5_prop eq sec e1 e2 modo s := by
  unfold C5_prop
  refine ⟨?_, ?_, ?_, ?_, ?_⟩
  · intro h1 h2
    simp only [CADENA_VACIA] at h2
    simp only [submit_point]
    by_cases hnp : s.need_other_team_pick_now = true ∧
        (s.pending_other_team_pick = 1 ∨ s.pending_other_team_pick = 2)
    · by_cases hmo : s.match_over = true
      · simp [h1, h2, hnp, hmo, registrar_evento]
      · simp [h1, h2, hnp, hmo, registrar_evento, validar_punto]
    · simp [h1, h2, hnp]
  · intro h1 h2 h3 h4
    simp only [CADENA_VACIA] at h4
    simp only [submit_point]
    simp [h1, h2, h3, h4, TB_SUPER]
  · intro h1 h2 h3 h4 h5
    simp only [CADENA_VACIA] at h4 h5
    simp only [submit_point]
    simp [h1, h2, h3, h4, h5, TB_SUPER]
  · intro h1 h2 h3 h4
    simp only [CADENA_VACIA] at h3 h4
    simp only [submit_point]
    simp [h1, h2, h3, h4, TB_SUPER]
  · intro h1 h2 h3
    rcases heq with rfl | rfl <;>
      simp [ganar_juego, h1, h2, h3, getP, setP, CADENA_VACIA,
        apply_ite SessionState.current_server,
        apply_ite SessionState.need_other_team_pick_now,
        _check_activar_super_tb_si_corresponde]

/-- Super tiebreak after point 0: first server C chosen, second still open. -/
def sW5 : SessionState :=
  { initial_state FORMATO_SUPER with
    sets := (1, 1), in_tb := true, tb_tipo := TB_SUPER, tb_target := 11,
    tb_pts := (1, 0), tb_rotation := [pC], tb_start_idx := 0, super_tb_first := pC }

/-- Witness for C5 at a concrete Super tiebreak missing its second server. -/
theorem C5_selection_gating_witness : C5_prop 2 pA e1c e2c MODO_ADVANTAGE sW5 :=
  C5_selection_gating 2 pA e1c e2c MODO_ADVANTAGE sW5 (Or.inr rfl)

/-! ## Claim C6 — 4-slot rotation order and game advance -/

/-- Rotation assembly and advance at state `s`: with team 1's first server X
and team 2's first server Y, the built order is [X, Y, partner X, partner Y]
when team 1 served game 1 and [Y, X, partner Y, partner X] otherwise;
advancing on a completed game adds exactly 1 to the rotation index modulo 4
when the order is complete and is a no-op while the order is missing. -/
def C6_prop (e1 e2 : Team) (s : SessionState) : Prop :=
  let X := s.team_first_server.1
  let Y := s.team_first_server.2
  (equipo_de s.first_server_of_set e1 e2 = 1 →
    (build_full_server_order e1 e2 s).server_order =
      [X, Y, companero X e1 e2, companero Y e1 e2]) ∧
  (¬ equipo_de s.first_server_of_set e1 e2 = 1 →
    (build_full_server_order e1 e2 s).server_order =
      [Y, X, companero Y e1 e2, companero X e1 e2]) ∧
  (¬ s.server_order = [] →
    (advance_server_game e1 e2 s).server_index = (s.server_index + 1) % 4 ∧
    (advance_server_game e1 e2 s).server_order = s.server_order) ∧
  (s.server_order = [] → advance_server_game e1 e2 s = s)

/-- C6 (amended): once both first servers are fixed, the 4-slot order is
[game-1 server, game-2 server, partner of the first, partner of the second] —
equal to [X, Y, X2, Y2] exactly when team 1 served game 1 — and the
game-advance steps the index by 1 modulo 4 when the order is complete and
does nothing while it is incomplete. -/
theorem C6_rotation_order (e1 e2 : Team) (s : SessionState)
    (hX : ¬ s.team_first_server.1 = CADENA_VACIA) (hY : ¬ s.team_first_server.2 = CADENA_VACIA)
    (hXm : s.team_first_server.1 = e1.1 ∨ s.team_first_server.1 = e1.2)
    (hYm : s.team_first_server.2 = e2.1 ∨ s.team_first_server.2 = e2.2)
    (hdisj : ¬ e2.1 = e1.1 ∧ ¬ e2.1 = e1.2 ∧ ¬ e2.2 = e1.1 ∧ ¬ e2.2 = e1.2) :
    C6_prop e1 e2 s := by
  obtain ⟨d1, d2, d3, d4⟩ := hdisj
  unfold C6_prop
  refine ⟨?_, ?_, ?_, ?_⟩
  · intro hfs
    rcases hXm with h | h <;> rcases hYm with h' | h' <;>
      simp_all [companero, CADENA_VACIA, hfs]
  · intro hfs
    rcases hXm with h | h <;> rcases hYm with h' | h' <;>
      simp_all [companero, CADENA_VACIA, hfs]
  · intro ho
    simp [ho]
  · intro ho
    unfold advance_server_game
    split_ifs <;> simp_all

/-- Both first servers picked — A for team 1 and C for team 2 — but game 1
was served by C, the team-2 pick. -/
def sC6 : SessionState :=
  { initial_state FORMATO_3SETS with
    team_first_server := (pA, pC), first_server_of_set := pC, current_server := pC,
    server_team := 2 }

/-- C6 counterexample: with first servers X = A (team 1) and Y = C (team 2)
but game 1 served by team 2, the built order is [C, A, D, B], not the claimed
[X, Y, X2, Y2] = [A, C, B, D]. -/
theorem C6_counterexample :
    (build_full_server_order e1c e2c sC6).server_order = [pC, pA, pD, pB] ∧
    ¬ (build_full_server_order e1c e2c sC6).server_order =
      [pA, pC, companero pA e1c e2c, companero pC e1c e2c] := by
  decide

/-- Both first servers picked with team 1 serving game 1, order built. -/
def sW6 : SessionState :=
  { initial_state FORMATO_3SETS with
    team_first_server := (pA, pC), first_server_of_set := pA,
    server_order := [pA, pC, pB, pD], server_index := 1, current_server := pC,
    server_team := 2 }

/-- Witness for C6 at a concrete team-1-first configuration. -/
theorem C6_rotation_order_witness : C6_prop e1c e2c sW6 :=
  C6_rotation_order e1c e2c sW6 (by decide) (by decide) (Or.inl rfl) (Or.inl rfl)
    (by decide)

/-! ## Claim C7 — set-tiebreak rotation snapshot -/

/-- Set-tiebreak activation data of the game win at state `s`: the tiebreak
starts with kind SET and target 7, its rotation is a verbatim copy of the
set's 4-slot order, and its starting offset is the rotation index plus 1
modulo 4 — one position past the server of the would-be next game. -/
def C7_prop (eq : Nat) (e1 e2 : Team) (s : SessionState) : Prop :=
  let r := ganar_juego eq e1 e2 s
  r.in_tb = true ∧ r.tb_tipo = TB_SET ∧ r.tb_target = 7 ∧
  r.tb_rotation = s.server_order ∧ r.tb_start_idx = (s.server_index + 1) % 4

/-- C7: when the game win brings the games to 6-6 with a complete rotation
order, the activated Set tiebreak copies the order verbatim and starts at the
rotation index plus 1, modulo 4. -/
theorem C7_set_tb_rotation (eq : Nat) (e1 e2 : Team) (s : SessionState)
    (hga : setP s.games (eq - 1) (getP s.games (eq - 1) + 1) = (6, 6))
    (hord : ¬ s.server_order = []) :
    C7_prop eq e1 e2 s := by
  unfold C7_prop
  simp [ganar_juego, hga, hord, TB_SET, Prod.ext_iff]

/-- Games 6-5 with a complete rotation order, team 2 about to hold. -/
def sW7 : SessionState :=
  { initial_state FORMATO_3SETS with
    games := (6, 5), server_order := [pA, pC, pB, pD], server_index := 2,
    current_server := pB, server_team := 1 }

/-- Witness for C7 at a concrete 6-6 activation. -/
theorem C7_set_tb_rotation_witness : C7_prop 2 e1c e2c sW7 :=
  C7_set_tb_rotation 2 e1c e2c sW7 (by decide) (by decide)

/-! ## Claim C8 — tiebreak serving pattern -/

/-- Tiebreak serving pattern over a 4-slot rotation with starting offset
`st`: the server of point `i` is slot `(st + t) % 4` where the server-turn
`t` is 0 for point 0 and `1 + (i - 1) / 2` afterwards, so point 0 is served
by the starting slot alone and each later pair of points shares one slot;
`ensure_tb_current_server` installs exactly this server for the point about
to be played. -/
def C8_prop (rot : List String) (st i k : Nat) (e1 e2 : Team) (x : SessionState) : Prop :=
  (tb_server_for_point i rot st =
    rot.getD ((st + (if i = 0 then 0 else 1 + (i - 1) / 2)) % 4) CADENA_VACIA) ∧
  tb_server_for_point 0 rot st = rot.getD (st % 4) CADENA_VACIA ∧
  tb_server_for_point (2 * k + 1) rot st = rot.getD ((st + (k + 1)) % 4) CADENA_VACIA ∧
  tb_server_for_point (2 * k + 2) rot st = rot.getD ((st + (k + 1)) % 4) CADENA_VACIA ∧
  (x.in_tb = true → x.tb_rotation = rot → x.tb_start_idx = st →
    (ensure_tb_current_server e1 e2 x).current_server =
      tb_server_for_point (x.tb_pts.1 + x.tb_pts.2) rot st)

/-- C8: the tiebreak server formula and its slot-pairing consequences hold
for every point index over a 4-slot rotation, and the current tiebreak server
is computed by that formula at the index given by the points played so far. -/
theorem C8_tb_server_pattern (rot : List String) (st i k : Nat) (e1 e2 : Team)
    (x : SessionState) (hlen : rot.length = 4) :
    C8_prop rot st i k e1 e2 x := by
  have hne : ¬ rot = [] := by
    intro h
    rw [h] at hlen
    simp at hlen
  unfold C8_prop
  refine ⟨?_, ?_, ?_, ?_, ?_⟩
  · simp [tb_server_for_point, hne, hlen]
  · simp [tb_server_for_point, hne, hlen]
  · simp [tb_server_for_point, hne, hlen]
    rw [Nat.add_comm 1 k]
  · simp [tb_server_for_point, hne, hlen]
    have h2 : (2 * k + 1) / 2 = k := by omega
    rw [h2, Nat.add_comm 1 k]
  · intro h1 h2 h3
    simp [h1, h2, h3, hne, hlen]

/-- Mid-tiebreak state at 2-1 over the rotation [A, C, B, D] started at 1. -/
def sW8 : SessionState :=
  { initial_state FORMATO_3SETS with
    sets := (0, 1), in_tb := true, tb_tipo := TB_SET, tb_target := 7, tb_pts := (2, 1),
    games := (6, 6), tb_rotation := [pA, pC, pB, pD], tb_start_idx := 1 }

/-- Witness for C8 over a concrete 4-slot rotation. -/
theorem C8_tb_server_pattern_witness : C8_prop [pA, pC, pB, pD] 1 3 1 e1c e2c sW8 :=
  C8_tb_server_pattern [pA, pC, pB, pD] 1 3 1 e1c e2c sW8 (by decide)

/-! ## Field-view lemmas for `reset_punto` -/

@[simp] theorem rp_match_over (x : SessionState) :
    (reset_punto x).match_over = x.match_over := by
  dsimp only [reset_punto, CADENA_VACIA]
  all_goals split_ifs <;> rfl

@[simp] theorem rp_sets (x : SessionState) :
    (reset_punto x).sets = x.sets := by
  dsimp only [reset_punto, CADENA_VACIA]
  all_goals split_ifs <;> rfl

@[simp] theorem rp_games (x : SessionState) :
    (reset_punto x).games = x.games := by
  dsimp only [reset_punto, CADENA_VACIA]
  all_goals split_ifs <;> rfl

@[simp] theorem rp_pts (x : SessionState) :
    (reset_punto x).pts = x.pts := by
  dsimp only [reset_punto, CADENA_VACIA]
  all_goals split_ifs <;> rfl

@[simp] theorem rp_adv (x : SessionState) :
    (reset_punto x).adv = x.adv := by
  dsimp only [reset_punto, CADENA_VACIA]
  all_goals split_ifs <;> rfl

@[simp] theorem rp_in_tb (x : SessionState) :
    (reset_punto x).in_tb = x.in_tb := by
  dsimp only [reset_punto, CADENA_VACIA]
  all_goals split_ifs <;> rfl

@[simp] theorem rp_tb_tipo (x : SessionState) :
    (reset_punto x).tb_tipo = x.tb_tipo := by
  dsimp only [reset_punto, CADENA_VACIA]
  all_goals split_ifs <;> rfl

@[simp] theorem rp_tb_target (x : SessionState) :
    (reset_punto x).tb_target = x.tb_target := by
  dsimp only [reset_punto, CADENA_VACIA]
  all_goals split_ifs <;> rfl

@[simp] theorem rp_tb_pts (x : SessionState) :
    (reset_punto x).tb_pts = x.tb_pts := by
  dsimp only [reset_punto, CADENA_VACIA]
  all_goals split_ifs <;> rfl

@[simp] theorem rp_tb_rotation (x : SessionState) :
    (reset_punto x).tb_rotation = x.tb_rotation := by
  dsimp only [reset_punto, CADENA_VACIA]
  all_goals split_ifs <;> rfl

@[simp] theorem rp_tb_start_idx (x : SessionState) :
    (reset_punto x).tb_start_idx = x.tb_start_idx := by
  dsimp only [reset_punto, CADENA_VACIA]
  all_goals split_ifs <;> rfl

@[simp] theorem rp_super_tb_first (x : SessionState) :
    (reset_punto x).super_tb_first = x.super_tb_first := by
  dsimp only [reset_punto, CADENA_VACIA]
  all_goals split_ifs <;> rfl

@[simp] theorem rp_super_tb_second (x : SessionState) :
    (reset_punto x).super_tb_second = x.super_tb_second := by
  dsimp only [reset_punto, CADENA_VACIA]
  all_goals split_ifs <;> rfl

@[simp] theorem rp_super_tb_ready (x : SessionState) :
    (reset_punto x).super_tb_ready = x.super_tb_ready := by
  dsimp only [reset_punto, CADENA_VACIA]
  all_goals split_ifs <;> rfl

@[simp] theorem rp_star_adv_count (x : SessionState) :
    (reset_punto x).star_adv_count = x.star_adv_count := by
  dsimp only [reset_punto, CADENA_VACIA]
  all_goals split_ifs <;> rfl

@[simp] theorem rp_star_golden_active (x : SessionState) :
    (reset_punto x).star_golden_active = x.star_golden_active := by
  dsimp only [reset_punto, CADENA_VACIA]
  all_goals split_ifs <;> rfl

@[simp] theorem rp_golden_receiver (x : SessionState) :
    (reset_punto x).golden_receiver = CADENA_VACIA := by
  dsimp only [reset_punto, CADENA_VACIA]
  all_goals split_ifs <;> rfl

@[simp] theorem rp_server_order (x : SessionState) :
    (reset_punto x).server_order = x.server_order := by
  dsimp only [reset_punto, CADENA_VACIA]
  all_goals split_ifs <;> rfl

@[simp] theorem rp_server_index (x : SessionState) :
    (reset_punto x).server_index = x.server_index := by
  dsimp only [reset_punto, CADENA_VACIA]
  all_goals split_ifs <;> rfl

@[simp] theorem rp_team_first_server (x : SessionState) :
    (reset_punto x).team_first_server = x.team_first_server := by
  dsimp only [reset_punto, CADENA_VACIA]
  all_goals split_ifs <;> rfl

@[simp] theorem rp_pending_other_team_pick (x : SessionState) :
    (reset_punto x).pending_other_team_pick = x.pending_other_team_pick := by
  dsimp only [reset_punto, CADENA_VACIA]
  all_goals split_ifs <;> rfl

@[simp] theorem rp_need_other_team_pick_now (x : SessionState) :
    (reset_punto x).need_other_team_pick_now = x.need_other_team_pick_now := by
  dsimp only [reset_punto, CADENA_VACIA]
  all_goals split_ifs <;> rfl

@[simp] theorem rp_first_server_of_set (x : SessionState) :
    (reset_punto x).first_server_of_set = x.first_server_of_set := by
  dsimp only [reset_punto, CADENA_VACIA]
  all_goals split_ifs <;> rfl

@[simp] theorem rp_current_server (x : SessionState) :
    (reset_punto x).current_server = x.current_server := by
  dsimp only [reset_punto, CADENA_VACIA]
  all_goals split_ifs <;> rfl

@[simp] theorem rp_server_team (x : SessionState) :
    (reset_punto x).server_team = x.server_team := by
  dsimp only [reset_punto, CADENA_VACIA]
  all_goals split_ifs <;> rfl

@[simp] theorem rp_formato_partido (x : SessionState) :
    (reset_punto x).formato_partido = x.formato_partido := by
  dsimp only [reset_punto, CADENA_VACIA]
  all_goals split_ifs <;> rfl

@[simp] theorem rp_sel_saque_estado (x : SessionState) :
    (reset_punto x).sel_saque_estado = CADENA_VACIA := by
  dsimp only [reset_punto, CADENA_VACIA]
  all_goals split_ifs <;> rfl

@[simp] theorem rp_sel_resultado (x : SessionState) :
    (reset_punto x).sel_resultado = CADENA_VACIA := by
  dsimp only [reset_punto, CADENA_VACIA]
  all_goals split_ifs <;> rfl

@[simp] theorem rp_sel_golpe (x : SessionState) :
    (reset_punto x).sel_golpe = CADENA_VACIA := by
  dsimp only [reset_punto, CADENA_VACIA]
  all_goals split_ifs <;> rfl

@[simp] theorem rp_sel_actor (x : SessionState) :
    (reset_punto x).sel_actor = CADENA_VACIA := by
  dsimp only [reset_punto, CADENA_VACIA]
  all_goals split_ifs <;> rfl

@[simp] theorem rp_sel_provocador (x : SessionState) :
    (reset_punto x).sel_provocador = CADENA_VACIA := by
  dsimp only [reset_punto, CADENA_VACIA]
  all_goals split_ifs <;> rfl

@[simp] theorem rp_sel_asistencia (x : SessionState) :
    (reset_punto x).sel_asistencia = CADENA_VACIA := by
  dsimp only [reset_punto, CADENA_VACIA]
  all_goals split_ifs <;> rfl

@[simp] theorem rp_sel_asistente (x : SessionState) :
    (reset_punto x).sel_asistente = CADENA_VACIA := by
  dsimp only [reset_punto, CADENA_VACIA]
  all_goals split_ifs <;> rfl


theorem puntos_texto_reset (i : Nat) (m : String) (x : SessionState) :
    puntos_texto i m (reset_punto x) = puntos_texto i m x := by
  simp [puntos_texto]

theorem set_actual_reset (x : SessionState) :
    set_actual (reset_punto x) = set_actual x := by
  simp [set_actual]

/-! ## Claim C9 — rejections are pure -/

/-- Rejection behaviour of `registrar_evento` at state `s`: whenever a reason
is reported the state is returned untouched and no row is appended; an
accepted point never carries a reason; a submission after match-over reports
the match-over reason; and otherwise the reported reason is exactly the first
rule violated by validation. -/
def C9_prop (e1 e2 : Team) (modo : String) (s : SessionState) : Prop :=
  let r := registrar_evento e1 e2 modo s
  (r.2.2.isSome = true → r.1 = s ∧ r.2.1 = none) ∧
  (r.2.1.isSome = true → r.2.2 = none) ∧
  (s.match_over = true → r.2.2 = some MSG_MATCH_OVER) ∧
  (s.match_over = false → (validar_punto e1 e2 modo s).isSome = true →
    r.2.2 = validar_punto e1 e2 modo s)

/-- C9: every rejected point submission leaves the session state unchanged,
appends no event row, and reports the reason of the violated rule. -/
theorem C9_rejection_purity (e1 e2 : Team) (modo : String) (s : SessionState) :
    C9_prop e1 e2 modo s := by
  unfold C9_prop
  by_cases hmo : s.match_over = true
  · simp [registrar_evento, hmo]
  · cases hv : validar_punto e1 e2 modo s with
    | some err => simp [registrar_evento, hmo, hv]
    | none =>
      simp [registrar_evento, hmo, hv]
      split_ifs <;> simp

/-- Concluded match with a server still recorded. -/
def sW9 : SessionState :=
  { initial_state FORMATO_3SETS with
    match_over := true, sets := (2, 0), current_server := pA }

/-- Witness for C9 at a concrete after-match submission. -/
theorem C9_rejection_purity_witness : C9_prop e1c e2c MODO_ADVANTAGE sW9 :=
  C9_rejection_purity e1c e2c MODO_ADVANTAGE sW9

set_option maxHeartbeats 4000000

/-! ## Claim C10 — rows snapshot the post-update score -/

/-- Acceptance behaviour of `registrar_evento` at state `s`: the appended row
records the set number, game counters, point texts and tiebreak flag of the
state after the point has been applied. -/
def C10_prop (e1 e2 : Team) (modo : String) (s : SessionState) : Prop :=
  let r := registrar_evento e1 e2 modo s
  r.2.2 = none →
    (r.2.1.map Row.Set) = some (set_actual r.1) ∧
    (r.2.1.map Row.Games_Eq1) = some (r.1.games.1) ∧
    (r.2.1.map Row.Games_Eq2) = some (r.1.games.2) ∧
    (r.2.1.map Row.Pts_Eq1) = some (puntos_texto 0 modo r.1) ∧
    (r.2.1.map Row.Pts_Eq2) = some (puntos_texto 1 modo r.1) ∧
    (r.2.1.map Row.TieBreak) = some r.1.in_tb ∧
    (r.2.1.map Row.TB_Tipo) = some (if r.1.in_tb = true then r.1.tb_tipo else CADENA_VACIA)

/-- C10: every accepted point's emitted row carries the post-update score
snapshot — its Set, Games, Pts and tiebreak fields all equal those of the
state returned alongside it. -/
theorem C10_row_snapshot (e1 e2 : Team) (modo : String) (s : SessionState) :
    C10_prop e1 e2 modo s := by
  unfold C10_prop
  by_cases hmo : s.match_over = true
  · simp [registrar_evento, hmo]
  · cases hv : validar_punto e1 e2 modo s with
    | some err => simp [registrar_evento, hmo, hv]
    | none =>
      simp only [registrar_evento, hmo, hv]
      simp only [Bool.false_eq_true, if_false]
      split_ifs <;>
        intro hfin <;>
        simp_all [make_row_base, set_actual_reset, puntos_texto_reset, CADENA_VACIA]

/-- Game point for team 1 at 40-0, a serve winner about to be recorded. -/
def sW10 : SessionState :=
  { initial_state FORMATO_3SETS with
    pts := (3, 0), current_server := pA, server_order := [pA, pC, pB, pD],
    sel_resultado := "Winner", sel_golpe := "Saque" }

/-- Witness for C10 at a concrete accepted game-winning point. -/
theorem C10_row_snapshot_witness : C10_prop e1c e2c MODO_ADVANTAGE sW10 :=
  C10_row_snapshot e1c e2c MODO_ADVANTAGE sW10
